import Mathlib

/-!
Shallow embedding of the travel-assistant dialogue core
(`backend/core`, `backend/models`, `backend/utils` of the repository),
together with proofs about its invariants, routing rules and recovery
behaviour.  Python strings are modelled as `List Char` / `String`,
Python `float` amounts as `ℚ`, Python `datetime.date` as a record of
numerals, and the regular expressions used by the source are compiled
by hand into executable scanners that reproduce the search semantics
of `re.search` on the pattern fragments the source uses.
-/

namespace Travel

/-! ## Basic character and string helpers -/

/-- Characters treated as whitespace by Python's `str.strip` / `\s` (ASCII subset). -/
def isSpaceChar (c : Char) : Bool :=
  c = ' ' || c = '\t' || c = '\n' || c = '\x0d' || c = '\x0b' || c = '\x0c'

/-- Python regex word character (`\w`): alphanumeric or underscore (ASCII subset). -/
def isWordChar (c : Char) : Bool :=
  c.isAlphanum || c = '_'

/-- Strip leading whitespace. -/
def lstripChars (l : List Char) : List Char :=
  l.dropWhile (fun c => isSpaceChar c)

/-- Strip trailing whitespace. -/
def rstripChars (l : List Char) : List Char :=
  (l.reverse.dropWhile (fun c => isSpaceChar c)).reverse

/-- Python `str.strip()`. -/
def stripChars (l : List Char) : List Char :=
  rstripChars (lstripChars l)

/-- Python `str.strip()` on `String`. -/
def pyStrip (s : String) : String :=
  ⟨stripChars s.toList⟩

/-- Python `str.lower()` (ASCII case folding, which covers every string in the source). -/
def lowerChars (l : List Char) : List Char :=
  l.map Char.toLower

/-- Python `str.lower()` on `String`. -/
def pyLower (s : String) : String :=
  ⟨lowerChars s.toList⟩

/-- Does `needle` occur as a contiguous substring of `hay`? -/
def containsSub (needle : List Char) : List Char → Bool
  | [] => needle.isEmpty
  | c :: rest => needle.isPrefixOf (c :: rest) || containsSub needle rest

/-- Substring test on `String`s (Python `needle in hay`). -/
def containsStr (hay needle : String) : Bool :=
  containsSub needle.toList hay.toList

/-- Does any needle in the list occur in `hay`? -/
def containsAnySub (hay : List Char) (needles : List (List Char)) : Bool :=
  needles.any (fun n => containsSub n hay)

/-- Python `hay.replace(needle, repl)` for a fixed non-empty needle:
leftmost, non-overlapping, repeated. -/
def replaceSub (needle repl : List Char) : List Char → List Char
  | [] => []
  | c :: rest =>
    if h : needle ≠ [] ∧ needle.isPrefixOf (c :: rest) then
      repl ++ replaceSub needle repl ((c :: rest).drop needle.length)
    else
      c :: replaceSub needle repl rest
termination_by l => l.length
decreasing_by
  · simp only [List.length_drop, List.length_cons]
    have : needle.length ≠ 0 := by
      intro hlen
      exact h.1 (List.eq_nil_of_length_eq_zero hlen)
    omega
  · simp

/-- Case-insensitive replace-all of a fixed needle (Python
`re.sub(re.escape(needle), repl, hay, flags=IGNORECASE)` for a plain-text needle). -/
def replaceSubCI (needle repl : List Char) : List Char → List Char
  | [] => []
  | c :: rest =>
    if h : needle ≠ [] ∧ needle.isPrefixOf (lowerChars (c :: rest)) then
      repl ++ replaceSubCI needle repl ((c :: rest).drop needle.length)
    else
      c :: replaceSubCI needle repl rest
termination_by l => l.length
decreasing_by
  · simp only [List.length_drop, List.length_cons]
    have : needle.length ≠ 0 := by
      intro hlen
      exact h.1 (List.eq_nil_of_length_eq_zero hlen)
    omega
  · simp

/-- Python `text.rstrip().endswith("?")`. -/
def endsWithQuestionMark (s : String) : Bool :=
  match (rstripChars s.toList).getLast? with
  | some c => c = '?'
  | none => false

/-! ## Regex scanning primitives

Word boundaries (`\b`): in every pattern the source uses, the first
matched character is a word character (digit or letter), so a leading
`\b` holds iff the preceding character is absent or a non-word
character; likewise the last matched character is always a word
character, so a trailing `\b` holds iff the following character is
absent or a non-word character. -/

/-- Leading `\b` before a word character: previous char absent or non-word. -/
def boundaryBefore : Option Char → Bool
  | none => true
  | some c => !isWordChar c

/-- Trailing `\b` after a word character: next char absent or non-word. -/
def boundaryAfter : List Char → Bool
  | [] => true
  | c :: _ => !isWordChar c

/-- Maximal run of decimal digits at the head, with the rest. -/
def digitRun : List Char → List Char × List Char
  | [] => ([], [])
  | c :: rest =>
    if c.isDigit then
      let (r, rest') := digitRun rest
      (c :: r, rest')
    else ([], c :: rest)

/-- Maximal run of whitespace at the head, with the rest. -/
def spaceRun : List Char → List Char × List Char
  | [] => ([], [])
  | c :: rest =>
    if isSpaceChar c then
      let (r, rest') := spaceRun rest
      (c :: r, rest')
    else ([], c :: rest)

theorem digitRun_rest_sublist (l : List Char) : (digitRun l).2.Sublist l := by
  induction l with
  | nil => simp [digitRun]
  | cons c rest ih =>
    simp only [digitRun]
    split
    · exact List.Sublist.cons c ih
    · exact List.Sublist.refl _

theorem digitRun_rest_length (l : List Char) : (digitRun l).2.length ≤ l.length :=
  (digitRun_rest_sublist l).length_le

theorem spaceRun_rest_sublist (l : List Char) : (spaceRun l).2.Sublist l := by
  induction l with
  | nil => simp [spaceRun]
  | cons c rest ih =>
    simp only [spaceRun]
    split
    · exact List.Sublist.cons c ih
    · exact List.Sublist.refl _

/-- First element of a list for which `f` yields `some`, mapped. -/
def firstSome {α β : Type} (l : List α) (f : α → Option β) : Option β :=
  l.findSome? f

/-! ## Calendar dates (`datetime.date`)

Python dates compare lexicographically on (year, month, day); date
subtraction yields exact day counts.  We model a date as a record of
numerals and compute serial day numbers with the proleptic Gregorian
calendar, which matches `datetime.date` for years 1..9999. -/

structure PyDate where
  year : Nat
  month : Nat
  day : Nat
deriving DecidableEq, Repr

/-- Gregorian leap-year test (as in `calendar.isleap`). -/
def isLeapYear (y : Nat) : Bool :=
  (y % 4 = 0 && y % 100 ≠ 0) || y % 400 = 0

/-- Number of days in a month (needed by `date.replace` validity). -/
def daysInMonth (y m : Nat) : Nat :=
  if m = 2 then (if isLeapYear y then 29 else 28)
  else if m = 4 || m = 6 || m = 9 || m = 11 then 30
  else 31

/-- Days in the months strictly before `m` in year `y`. -/
def daysBeforeMonth (y m : Nat) : Nat :=
  (List.range (m - 1)).foldl (fun acc i => acc + daysInMonth y (i + 1)) 0

/-- Serial day number of a date (proleptic Gregorian, `0001-01-01` = 1). -/
def PyDate.serial (d : PyDate) : Nat :=
  365 * (d.year - 1) + (d.year - 1) / 4 - (d.year - 1) / 100 + (d.year - 1) / 400
    + daysBeforeMonth d.year d.month + d.day

/-- Python `date_a < date_b` (lexicographic on year, month, day). -/
def PyDate.lt (a b : PyDate) : Bool :=
  a.year < b.year ||
  (a.year = b.year && (a.month < b.month || (a.month = b.month && a.day < b.day)))

/-- Python `(a - b).days` as an integer. -/
def PyDate.diffDays (a b : PyDate) : Int :=
  (a.serial : Int) - (b.serial : Int)

/-- Python `d.replace(year=y)`: `none` models the `ValueError` raised when the
day does not exist in the target year (Feb 29 in a non-leap year). -/
def PyDate.replaceYear (d : PyDate) (y : Nat) : Option PyDate :=
  if d.day ≤ daysInMonth y d.month then some { d with year := y } else none

/-! ## Data model (`backend/models`) -/

/-- `backend/models/intent.py`: the closed intent enum. -/
inductive Intent where
  | ITINERARY_PLANNING
  | ATTRACTIONS_RECOMMENDATIONS
  | PACKING_LIST
  | WEATHER_QUERY
  | CURRENCY_CONVERSION
  | CONSTRAINTS_UPDATE
  | CLARIFICATION_NEEDED
  | OUT_OF_SCOPE
deriving DecidableEq, Repr

/-- String value of an intent (the `str`-enum payload in the source). -/
def Intent.value : Intent → String
  | .ITINERARY_PLANNING => "itinerary_planning"
  | .ATTRACTIONS_RECOMMENDATIONS => "attractions_recommendations"
  | .PACKING_LIST => "packing_list"
  | .WEATHER_QUERY => "weather_query"
  | .CURRENCY_CONVERSION => "currency_conversion"
  | .CONSTRAINTS_UPDATE => "constraints_update"
  | .CLARIFICATION_NEEDED => "clarification_needed"
  | .OUT_OF_SCOPE => "out_of_scope"

/-- `backend/models/decision.py`: the action enum. -/
inductive Action where
  | ASK_CLARIFICATION
  | GENERATE_RESPONSE
  | CALL_TOOL
  | OUT_OF_SCOPE_RESPONSE
deriving DecidableEq, Repr

/-- The currency tool payload built by `DecisionLogic.decide`
(the only payload the source ever constructs). -/
structure ToolPayload where
  amount : ℚ
  from_ccy : String
  to_ccy : String
deriving DecidableEq, Repr

/-- `backend/models/decision.py`: the `Decision` record. -/
structure Decision where
  action : Action
  missing_info : List String := []
  tool_name : Option String := none
  notes : Option String := none
  tool_payload : Option ToolPayload := none
deriving DecidableEq, Repr

/-- Python truthiness of the optional `tool_name` (`not self.tool_name`). -/
def toolNameTruthy : Option String → Bool
  | none => false
  | some s => s ≠ ""

/-- `Decision._check_tool_name`: the pydantic `model_validator` running at
construction time; `Except.error` models the raised `ValueError`. -/
def Decision.check_tool_name (d : Decision) : Except String Decision :=
  if d.action = Action.CALL_TOOL && !toolNameTruthy d.tool_name then
    Except.error "tool_name is required when action=CALL_TOOL"
  else if d.action ≠ Action.CALL_TOOL && d.tool_name.isSome then
    Except.error "tool_name must be None unless action=CALL_TOOL"
  else if d.action ≠ Action.CALL_TOOL && d.tool_payload.isSome then
    Except.error "tool_payload must be None unless action=CALL_TOOL"
  else
    Except.ok d

/-- Constructing a `Decision` (pydantic runs `_check_tool_name` after init). -/
def mkDecision (action : Action) (missing_info : List String)
    (tool_name : Option String) (notes : Option String)
    (tool_payload : Option ToolPayload) : Except String Decision :=
  Decision.check_tool_name
    { action := action, missing_info := missing_info, tool_name := tool_name,
      notes := notes, tool_payload := tool_payload }

/-- `backend/models/message.py`: one chat message. -/
structure Message where
  role : String
  content : String
  timestamp : Nat := 0
deriving DecidableEq, Repr

/-- `backend/models/trip_profile.py`: canonical trip facts. -/
structure TripProfile where
  destination : Option String := none
  start_date : Option PyDate := none
  end_date : Option PyDate := none
  duration_days : Option Int := none
  budget : Option String := none
  travelers : Option String := none
  interests : List String := []
  pace : Option String := none
  constraints : List String := []
deriving DecidableEq, Repr

/-- `backend/models/state.py`: per-session state. -/
structure State where
  session_id : String
  trip_profile : TripProfile := {}
  conversation_history : List Message := []
  last_intent : Option Intent := none
  primary_intent : Option Intent := none
  turn_count : Nat := 0
  pending_missing_info : List String := []
  created_at : Nat := 0
  updated_at : Nat := 0
deriving DecidableEq, Repr

/-- `backend/core/validator.py`: validation outcome. -/
structure ValidationResult where
  ok : Bool
  missing_info : List String
  problems : List String
deriving DecidableEq, Repr

/-- `backend/core/trust_layer.py`: trust-filter outcome. -/
structure TrustResult where
  text : String
  flagged : Bool
  reasons : List String
deriving DecidableEq, Repr

/-- `backend/core/fallback_handler.py`: recovery outcome. -/
structure FallbackResult where
  message : String
  used_llm : Bool
  pending_missing_info : List String
  resolved_intent : Option Intent := none
deriving DecidableEq, Repr

/-! ## Currency parsing (`backend/utils/currency.py`)

The source's regexes are compiled by hand.  The amount fragment
`\d{1,3}(?:,\d{3})*(?:\.\d+)?|\d+(?:\.\d+)?` is always wrapped in
`\b..\b`, so backtracking inside a digit run is dead (a shorter run
leaves a digit adjacent to a digit, which fails the boundary and every
token continuation); the candidates below enumerate exactly the live
backtracking states in the engine's preference order. -/

/-- Characters of the `_TOKEN` class `[A-Za-z$₪€]+`. -/
def isTokenChar (c : Char) : Bool :=
  c.isAlpha || c = '$' || c = '₪' || c = '€'

/-- Maximal run of `_TOKEN` characters at the head, with the rest. -/
def tokenRun : List Char → List Char × List Char
  | [] => ([], [])
  | c :: rest =>
    if isTokenChar c then
      let (r, rest') := tokenRun rest
      (c :: r, rest')
    else ([], c :: rest)

/-- Candidates for a greedy `TOKEN` group, longest first, each with its rest
(the group can backtrack to any non-empty prefix of the run). -/
def token1Cands (l : List Char) : List (List Char × List Char) :=
  let (run, rest) := tokenRun l
  (List.range run.length).map (fun i =>
    let k := run.length - i
    (run.take k, run.drop k ++ rest))

/-- Candidates for the greedy `(?:,\d{3})*` loop after `base`, greediest first. -/
def commaGroupsCands (base : List Char) : List Char → List (List Char × List Char)
  | ',' :: d1 :: d2 :: d3 :: r =>
    if d1.isDigit && d2.isDigit && d3.isDigit then
      commaGroupsCands (base ++ [',', d1, d2, d3]) r ++ [(base, ',' :: d1 :: d2 :: d3 :: r)]
    else [(base, ',' :: d1 :: d2 :: d3 :: r)]
  | rest => [(base, rest)]

/-- The optional fraction `(?:\.\d+)?` at the head: the consumed part and the rest. -/
def fracSplit : List Char → Option (List Char × List Char)
  | '.' :: r =>
    let (ds, r') := digitRun r
    if ds.isEmpty then none else some ('.' :: ds, r')
  | _ => none

/-- Candidate matches for the amount fragment at the head of `l`
(which is only consulted when `l` starts with a digit), in the regex
engine's backtracking order. -/
def amountCands (l : List Char) : List (List Char × List Char) :=
  let (run, rest) := digitRun l
  if run.isEmpty then []
  else
    let bases := if run.length ≤ 3 then commaGroupsCands run rest else [(run, rest)]
    bases.flatMap (fun p =>
      match fracSplit p.2 with
      | some (f, r') => [(p.1 ++ f, r'), p]
      | none => [p])

/-- `re.search(rf"\b{_AMOUNT}\b", t)`: leftmost match of a free-standing amount. -/
def searchAmountScan : Option Char → List Char → Option (List Char)
  | _, [] => none
  | prev, c :: rest =>
    (if boundaryBefore prev && c.isDigit then
      firstSome (amountCands (c :: rest)) (fun p => if boundaryAfter p.2 then some p.1 else none)
    else none) <|> searchAmountScan (some c) rest

/-- Numeric value of a matched amount (commas removed, decimal point honoured). -/
def natOfDigits (l : List Char) : Nat :=
  l.foldl (fun a c => 10 * a + (c.toNat - 48)) 0

/-- Value of a matched amount string, as an exact rational. -/
def amountValue (m : List Char) : ℚ :=
  let m' := m.filter (fun c => c ≠ ',')
  match m'.splitOn '.' with
  | [w] => (natOfDigits w : ℚ)
  | [w, f] => (natOfDigits w : ℚ) + (natOfDigits f : ℚ) / ((10 : ℚ) ^ f.length)
  | _ => 0

/-- `_parse_amount_str`: parse and reject non-positive values. -/
def parse_amount_str (m : List Char) : Option ℚ :=
  if m.isEmpty then none
  else
    let v := amountValue m
    if 0 < v then some v else none

/-- Match `day\s+\d+\b` at the head (the `\b` before `day` is checked by the caller). -/
def matchDayNumberAt : List Char → Bool
  | 'd' :: 'a' :: 'y' :: r =>
    let (sp, r1) := spaceRun r
    if sp.isEmpty then false
    else
      let (ds, r2) := digitRun r1
      !ds.isEmpty && boundaryAfter r2
  | _ => false

/-- `re.search(r"\bday\s+\d+\b", low)` as a boolean. -/
def hasDayNumberScan : Option Char → List Char → Bool
  | _, [] => false
  | prev, c :: rest =>
    (boundaryBefore prev && matchDayNumberAt (c :: rest)) || hasDayNumberScan (some c) rest

/-- Needles of `r"[$€₪]|usd|eur|ils|gbp|jpy|dollar|euro|shekel|pound|yen"`
(an unanchored alternation, i.e. plain substring search). -/
def currencyTokenNeedles : List (List Char) :=
  ["$", "€", "₪", "usd", "eur", "ils", "gbp", "jpy",
   "dollar", "euro", "shekel", "pound", "yen"].map String.toList

/-- `parse_currency_amount`: extract an amount-only message. -/
def parse_currency_amount (text : String) : Option ℚ :=
  if text = "" then none
  else
    let t := stripChars text.toList
    let low := lowerChars t
    if hasDayNumberScan none low && !containsAnySub low currencyTokenNeedles then none
    else
      match searchAmountScan none t with
      | some m => parse_amount_str m
      | none => none

/-- `_ALIASES`: normalization table for currency tokens. -/
def currencyAliases : List (String × String) :=
  [("dollar", "USD"), ("dollars", "USD"), ("$", "USD"), ("usd", "USD"),
   ("euro", "EUR"), ("euros", "EUR"), ("eur", "EUR"), ("€", "EUR"),
   ("shekel", "ILS"), ("shekels", "ILS"), ("nis", "ILS"), ("ils", "ILS"), ("₪", "ILS"),
   ("pound", "GBP"), ("pounds", "GBP"), ("gbp", "GBP"),
   ("yen", "JPY"), ("jpy", "JPY")]

/-- Lowercase ASCII letter test (the residue of `[^a-z$₪€]` filtering). -/
def isLowerAlpha (c : Char) : Bool :=
  'a' ≤ c && c ≤ 'z'

/-- `_normalize_currency_token`: `"$"`/`"dollars"`/`"usd"` → `"USD"`. -/
def normalize_currency_token (token : List Char) : Option String :=
  if token.isEmpty then none
  else
    let t := lowerChars (stripChars token)
    let t := t.filter (fun c => isLowerAlpha c || c = '$' || c = '₪' || c = '€')
    if t.isEmpty then none
    else if t.length = 3 && t.all (fun c => isLowerAlpha c) then
      some ⟨t.map Char.toUpper⟩
    else
      (currencyAliases.find? (fun p => p.1 = (⟨t⟩ : String))).map Prod.snd

/-- Tail of `(?:to|in)`: `\s*(TOKEN)`, returning the greedy second token. -/
def litTailCont (r2 : List Char) : Option (List Char) :=
  let (_, r3) := spaceRun r2
  let (t2, _) := tokenRun r3
  if t2.isEmpty then none else some t2

/-- Continuation `\s*(?:to|in)\s*(TOKEN)` after the first token
(`allowIn = false` drops the `in` alternative, as in the second query pattern). -/
def pairCont (allowIn : Bool) (r : List Char) : Option (List Char) :=
  let (_, r1) := spaceRun r
  match r1 with
  | a :: b :: r2 =>
    if a.toLower = 't' && b.toLower = 'o' then litTailCont r2
    else if allowIn && a.toLower = 'i' && b.toLower = 'n' then litTailCont r2
    else none
  | _ => none

/-- `re.search(rf"({_TOKEN})\s*(?:to|in)\s*({_TOKEN})", t, IGNORECASE)`:
leftmost match, returning the two groups. -/
def searchPair1 : List Char → Option (List Char × List Char)
  | [] => none
  | c :: rest =>
    (if isTokenChar c then
      firstSome (token1Cands (c :: rest)) (fun p =>
        (pairCont true p.2).map (fun t2 => (p.1, t2)))
    else none) <|> searchPair1 rest

/-- `re.search(rf"({_TOKEN})\s*[/\-]\s*({_TOKEN})", t, IGNORECASE)`:
the separator is not a token character, so the first group never backtracks. -/
def searchPair2 : List Char → Option (List Char × List Char)
  | [] => none
  | c :: rest =>
    (if isTokenChar c then
      let (t1, r) := tokenRun (c :: rest)
      let (_, r1) := spaceRun r
      match r1 with
      | s :: r2 =>
        if s = '/' || s = '-' then
          let (_, r3) := spaceRun r2
          let (t2, _) := tokenRun r3
          if t2.isEmpty then none else some (t1, t2)
        else none
      | [] => none
    else none) <|> searchPair2 rest

/-- Normalize a raw group pair, requiring two distinct codes. -/
def normalizePairGroups (g : List Char × List Char) : Option (String × String) :=
  match normalize_currency_token g.1, normalize_currency_token g.2 with
  | some a, some b => if a ≠ b then some (a, b) else none
  | _, _ => none

/-- `parse_currency_pair`: pair-only patterns (`usd to eur`, `EUR/GBP`, ...). -/
def parse_currency_pair (text : String) : Option (String × String) :=
  if text = "" then none
  else
    let t := stripChars text.toList
    match (searchPair1 t).bind normalizePairGroups with
    | some p => some p
    | none => (searchPair2 t).bind normalizePairGroups

/-- `CurrencyQuery` from `backend/utils/currency.py`. -/
structure CurrencyQuery where
  amount : ℚ
  from_ccy : String
  to_ccy : String
deriving DecidableEq, Repr

/-- Continuation `\b\s*(TOKEN)\s*(?:to|in)\s*(TOKEN)` after a matched amount `m`. -/
def queryCont1 (m : List Char) (r : List Char) :
    Option (List Char × List Char × List Char) :=
  if boundaryAfter r then
    let (_, r1) := spaceRun r
    firstSome (token1Cands r1) (fun p =>
      (pairCont true p.2).map (fun t2 => (m, p.1, t2)))
  else none

/-- `re.search(rf"\b{_AMOUNT}\b\s*({_TOKEN})\s*(?:to|in)\s*({_TOKEN})", t, IGNORECASE)`:
leftmost match, returning (amount, token1, token2). -/
def searchQuery1 : Option Char → List Char → Option (List Char × List Char × List Char)
  | _, [] => none
  | prev, c :: rest =>
    (if boundaryBefore prev && c.isDigit then
      firstSome (amountCands (c :: rest)) (fun p => queryCont1 p.1 p.2)
    else none) <|> searchQuery1 (some c) rest

/-- Tail `\s*\b AMOUNT \b` where `prevChar` is the character right before `r`. -/
def amountTailCont (prevChar : Char) (r : List Char) : Option (List Char) :=
  let (sp, r1) := spaceRun r
  let prevAfterSpaces := if sp.isEmpty then prevChar else ' '
  match r1 with
  | c :: _ =>
    if boundaryBefore (some prevAfterSpaces) && c.isDigit then
      firstSome (amountCands r1) (fun p => if boundaryAfter p.2 then some p.1 else none)
    else none
  | [] => none

/-- Tail `\s*(TOKEN)\s*\b AMOUNT \b` after the literal `to`. -/
def query2Tail (r2 : List Char) : Option (List Char × List Char) :=
  let (_, r3) := spaceRun r2
  firstSome (token1Cands r3) (fun p =>
    match p.1.getLast? with
    | some lastc => (amountTailCont lastc p.2).map (fun m => (p.1, m))
    | none => none)

/-- `re.search(rf"({_TOKEN})\s*to\s*({_TOKEN})\s*\b{_AMOUNT}\b", t, IGNORECASE)`:
leftmost match, returning (token1, token2, amount). -/
def searchQuery2 : List Char → Option (List Char × List Char × List Char)
  | [] => none
  | c :: rest =>
    (if isTokenChar c then
      firstSome (token1Cands (c :: rest)) (fun p =>
        let (_, r1) := spaceRun p.2
        match r1 with
        | a :: b :: r2 =>
          if a.toLower = 't' && b.toLower = 'o' then
            (query2Tail r2).map (fun q => (p.1, q.1, q.2))
          else none
        | _ => none)
    else none) <|> searchQuery2 rest

/-- Build a `CurrencyQuery` from matched (amount, token1, token2) groups. -/
def buildQuery1 (g : List Char × List Char × List Char) : Option CurrencyQuery :=
  match parse_amount_str g.1, normalize_currency_token g.2.1, normalize_currency_token g.2.2 with
  | some amount, some f, some t => if f ≠ t then some ⟨amount, f, t⟩ else none
  | _, _, _ => none

/-- Build a `CurrencyQuery` from matched (token1, token2, amount) groups. -/
def buildQuery2 (g : List Char × List Char × List Char) : Option CurrencyQuery :=
  match normalize_currency_token g.1, normalize_currency_token g.2.1, parse_amount_str g.2.2 with
  | some f, some t, some amount => if f ≠ t then some ⟨amount, f, t⟩ else none
  | _, _, _ => none

/-- `parse_currency_query`: full patterns such as `convert 100 usd to eur`. -/
def parse_currency_query (text : String) : Option CurrencyQuery :=
  if text = "" then none
  else
    let t := stripChars text.toList
    match (searchQuery1 none t).bind buildQuery1 with
    | some q => some q
    | none => (searchQuery2 t).bind buildQuery2

/-! ## Trip profile updates (`backend/models/trip_profile.py`) -/

/-- A date-typed update value: the source accepts either a `date` instance or
an ISO string (parsed with `date.fromisoformat`, which raises on bad input). -/
inductive DateUpdate where
  | d (date : PyDate)
  | s (text : String)
deriving DecidableEq, Repr

/-- The update dictionary consumed by `TripProfile.apply_updates`.  A missing
key and a value of the wrong runtime type both behave as `none` (the source's
`isinstance` guards skip them); non-string items inside the `interests` /
`constraints` lists are likewise skipped and therefore not modelled. -/
structure Updates where
  destination : Option String := none
  start_date : Option DateUpdate := none
  end_date : Option DateUpdate := none
  duration_days : Option Int := none
  budget : Option String := none
  travelers : Option String := none
  pace : Option String := none
  interests : Option (List String) := none
  constraints : Option (List String) := none
deriving DecidableEq, Repr

/-- `date.fromisoformat` on a `YYYY-MM-DD` string; `none` models `ValueError`. -/
def fromIsoFormat (s : String) : Option PyDate :=
  match s.toList with
  | [y1, y2, y3, y4, '-', m1, m2, '-', d1, d2] =>
    if [y1, y2, y3, y4, m1, m2, d1, d2].all Char.isDigit then
      let y := natOfDigits [y1, y2, y3, y4]
      let m := natOfDigits [m1, m2]
      let d := natOfDigits [d1, d2]
      if 1 ≤ y && 1 ≤ m && m ≤ 12 && 1 ≤ d && d ≤ daysInMonth y m then
        some ⟨y, m, d⟩
      else none
    else none
  | _ => none

/-- One date field of `apply_updates`; the outer `none` models the uncaught
`ValueError` escaping from `date.fromisoformat`. -/
def applyDateField (cur : Option PyDate) (upd : Option DateUpdate) :
    Option (Option PyDate) :=
  match upd with
  | none => some cur
  | some (.d d) => some (some d)
  | some (.s s) =>
    if pyStrip s = "" then some cur
    else
      match fromIsoFormat (pyStrip s) with
      | some d => some (some d)
      | none => none

/-- The list-merge loop of `apply_updates`: strip each item, drop empties and
entries already present, append the rest in order. -/
def mergeListField (cur : List String) (upd : List String) : List String :=
  upd.foldl (fun acc item =>
    let cleaned := pyStrip item
    if cleaned ≠ "" ∧ cleaned ∉ acc then acc ++ [cleaned] else acc) cur

/-- One optional free-text field of `apply_updates`. -/
def applyTextField (cur : Option String) (upd : Option String) : Option String :=
  match upd with
  | some s => if pyStrip s ≠ "" then some (pyStrip s) else cur
  | none => cur

/-- The straight-line tail of `apply_updates` after both date fields have
been merged without an exception: duration, the free-text fields, and the two
dedup-merged lists. -/
def apply_updates_tail (p : TripProfile) (u : Updates) : TripProfile :=
  let p := match u.duration_days with
    | some n => { p with duration_days := some n }
    | none => p
  let p := { p with budget := applyTextField p.budget u.budget }
  let p := { p with travelers := applyTextField p.travelers u.travelers }
  let p := { p with pace := applyTextField p.pace u.pace }
  let p := match u.interests with
    | some l => { p with interests := mergeListField p.interests l }
    | none => p
  match u.constraints with
  | some l => { p with constraints := mergeListField p.constraints l }
  | none => p

/-- `TripProfile.apply_updates`.  Returns the (possibly partially) updated
profile and a flag that is `true` when the uncaught `ValueError` from
`date.fromisoformat` aborted the method; mutations made before the raise are
kept, as in the source.  The source's early return on an empty update dict is
behaviourally identical to running all the skipping branches. -/
def apply_updates (p : TripProfile) (u : Updates) : TripProfile × Bool :=
  let p := { p with destination := applyTextField p.destination u.destination }
  match applyDateField p.start_date u.start_date with
  | none => (p, true)
  | some sd =>
    let p := { p with start_date := sd }
    match applyDateField p.end_date u.end_date with
    | none => (p, true)
    | some ed => (apply_updates_tail { p with end_date := ed } u, false)

/-! ## Validator (`backend/core/validator.py`) -/

/-- Python truthiness of an optional string (`not trip.destination`). -/
def optStrFalsy : Option String → Bool
  | none => true
  | some s => s = ""

/-- `Validator._has_dates_or_duration`. -/
def has_dates_or_duration (state : State) : Bool :=
  let trip := state.trip_profile
  trip.duration_days.isSome || (trip.start_date.isSome && trip.end_date.isSome)

/-- `Validator.validate`. -/
def validate (intent : Intent) (state : State) : ValidationResult :=
  let trip := state.trip_profile
  let problems : List String :=
    match trip.duration_days with
    | some n => if n ≤ 0 then ["duration_days must be > 0"] else []
    | none => []
  let missing : List String :=
    if intent = Intent.ITINERARY_PLANNING then
      (if optStrFalsy trip.destination then ["destination"] else []) ++
        (if !has_dates_or_duration state then ["dates_or_duration"] else [])
    else if intent = Intent.WEATHER_QUERY then
      (if optStrFalsy trip.destination then ["destination"] else [])
    else if intent = Intent.ATTRACTIONS_RECOMMENDATIONS ∨ intent = Intent.PACKING_LIST then
      (if optStrFalsy trip.destination then ["destination"] else [])
    else []
  { ok := missing.isEmpty && problems.isEmpty, missing_info := missing, problems := problems }

/-! ## Weather rules (`backend/utils/weather_rules.py`) -/

/-- The alternatives of `_MONTH_PATTERN`, as lowercase strings; each month
contributes its long and (where distinct) short form, the only two states the
optional-suffix groups can take. -/
def monthForms : List (List Char) :=
  ["january", "jan", "february", "feb", "march", "mar", "april", "apr", "may",
   "june", "jun", "july", "jul", "august", "aug", "september", "sep",
   "october", "oct", "november", "nov", "december", "dec"].map String.toList

/-- Scan for `\b(month)\b` over the lowered text. -/
def mentionsMonthScan : Option Char → List Char → Bool
  | _, [] => false
  | prev, c :: rest =>
    (boundaryBefore prev &&
      monthForms.any (fun f =>
        f.isPrefixOf (c :: rest) && boundaryAfter ((c :: rest).drop f.length)))
    || mentionsMonthScan (some c) rest

/-- `mentions_month`: fast check for month names. -/
def mentions_month (text : String) : Bool :=
  mentionsMonthScan none (lowerChars text.toList)

/-- `is_seasonal_weather_question`: seasonal-phrasing triggers. -/
def is_seasonal_weather_question (text : String) : Bool :=
  let t := pyLower text
  ["usually", "typical", "around this time of year", "on average", "generally"].any
    (fun x => containsStr t x)

/-- Shared core of the forecast-window check once missing endpoints have been
normalized (both endpoints present). -/
def forecastWindowCore (today start «end» : PyDate) (horizon_days : Int) : Bool :=
  if PyDate.lt «end» start then false
  else if PyDate.lt «end» today then false
  else if horizon_days < PyDate.diffDays start today then false
  else if horizon_days < PyDate.diffDays «end» today then false
  else if horizon_days < PyDate.diffDays «end» start + 1 then false
  else true

/-- `is_within_open_meteo_forecast_window`; `today` makes the source's ambient
`date.today()` explicit. -/
def is_within_open_meteo_forecast_window (today : PyDate) (trip : TripProfile)
    (horizon_days : Int := 16) : Bool :=
  match trip.start_date, trip.end_date with
  | none, none => true
  | none, some e => forecastWindowCore today e e horizon_days
  | some s, none => forecastWindowCore today s s horizon_days
  | some s, some e => forecastWindowCore today s e horizon_days

/-! ## Cross-message currency combination (`backend/utils/history_extractors.py`) -/

/-- `_CurrencyParts`. -/
structure CurrencyParts where
  amount : Option ℚ := none
  pair : Option (String × String) := none
deriving DecidableEq, Repr

/-- `_extract_currency_parts`: prefer the full parse, else partials. -/
def extract_currency_parts (text : String) : CurrencyParts :=
  match parse_currency_query text with
  | some full => ⟨some full.amount, some (full.from_ccy, full.to_ccy)⟩
  | none => ⟨parse_currency_amount text, parse_currency_pair text⟩

/-- The reverse-chronological scan of `combine_currency_query_from_history`:
walk prior messages (given already reversed), skipping non-user and blank
entries, bounded by the lookback count; collect the first pair found and — only
when permitted — the first amount found; stop as soon as the still-needed
fields are satisfied. -/
def combineScanLoop (allow needAmount needPair : Bool) (maxLb : Nat) :
    List Message → Nat → Option ℚ → Option (String × String) →
    Option ℚ × Option (String × String)
  | [], _, fa, fp => (fa, fp)
  | m :: rest, cnt, fa, fp =>
    if m.role ≠ "user" then combineScanLoop allow needAmount needPair maxLb rest cnt fa fp
    else
      let text := pyStrip m.content
      if text = "" then combineScanLoop allow needAmount needPair maxLb rest cnt fa fp
      else
        let cnt := cnt + 1
        if maxLb < cnt then (fa, fp)
        else
          let parts := extract_currency_parts text
          let fp := if fp.isNone && parts.pair.isSome then parts.pair else fp
          let fa := if allow && (fa.isNone && parts.amount.isSome) then parts.amount else fa
          if (!needAmount || fa.isSome) && (!needPair || fp.isSome) then (fa, fp)
          else combineScanLoop allow needAmount needPair maxLb rest cnt fa fp

/-- The pair component of the reverse-chronological scan in isolation: the
first currency pair parseable from a prior non-blank user message, within the
lookback bound.  This is what "a currency pair is parseable from history"
means below. -/
def history_pair_scan (maxLb : Nat) : List Message → Nat → Option (String × String)
  | [], _ => none
  | m :: rest, cnt =>
    if m.role ≠ "user" then history_pair_scan maxLb rest cnt
    else
      let text := pyStrip m.content
      if text = "" then history_pair_scan maxLb rest cnt
      else
        let cnt := cnt + 1
        if maxLb < cnt then none
        else
          match (extract_currency_parts text).pair with
          | some p => some p
          | none => history_pair_scan maxLb rest cnt

/-- `combine_currency_query_from_history`. -/
def combine_currency_query_from_history (user_message : String)
    (conversation_history : List Message)
    (max_lookback_user_messages : Nat := 10)
    (allow_amount_from_history : Bool := false) : Option CurrencyQuery :=
  match parse_currency_query user_message with
  | some full => some full
  | none =>
    let nowParts := extract_currency_parts user_message
    if nowParts.amount.isNone && nowParts.pair.isNone then none
    else
      let scanned := combineScanLoop allow_amount_from_history
        nowParts.amount.isNone nowParts.pair.isNone max_lookback_user_messages
        conversation_history.reverse 0 none none
      let amount := match nowParts.amount with
        | some a => some a
        | none => scanned.1
      let pair := match nowParts.pair with
        | some p => some p
        | none => scanned.2
      match amount, pair with
      | some a, some (f, t) => some ⟨a, f, t⟩
      | _, _ => none

/-! ## Decision router (`backend/core/decision_logic.py`) -/

/-- `DecisionLogic._is_numeric_amount`. -/
def is_numeric_amount (msg : String) : Bool :=
  (parse_currency_amount msg).isSome

/-- `DecisionLogic.decide`; `today` makes the ambient date used by the
forecast-window rule explicit. -/
def decide (today : PyDate) (intent : Intent) (validation : ValidationResult)
    (user_message : String) (state : State) : Decision :=
  if intent = Intent.OUT_OF_SCOPE then
    { action := Action.OUT_OF_SCOPE_RESPONSE,
      notes := some "User request is outside supported travel domain" }
  else if intent = Intent.CLARIFICATION_NEEDED then
    { action := Action.ASK_CLARIFICATION, missing_info := ["goal"],
      notes := some "User message unclear -> ask for goal" }
  else if !validation.ok then
    { action := Action.ASK_CLARIFICATION, missing_info := validation.missing_info,
      notes := some "Missing or invalid information" }
  else if intent = Intent.WEATHER_QUERY then
    if mentions_month user_message || is_seasonal_weather_question user_message then
      { action := Action.GENERATE_RESPONSE,
        notes := some "Seasonal weather wording -> general seasonal answer (no tool)" }
    else if !is_within_open_meteo_forecast_window today state.trip_profile then
      { action := Action.GENERATE_RESPONSE,
        notes := some "Weather query outside Open-Meteo window -> seasonal/general answer (no tool)" }
    else
      { action := Action.CALL_TOOL, tool_name := some "weather",
        notes := some "Weather query within horizon -> call tool" }
  else if intent = Intent.CURRENCY_CONVERSION then
    let cq0 := parse_currency_query user_message
    let currency_query :=
      if cq0.isNone ∧ (state.pending_missing_info = ["currency_amount"] ∨
          state.pending_missing_info = ["currency_pair"]) then
        combine_currency_query_from_history user_message
          state.conversation_history.dropLast 10
          (state.pending_missing_info = ["currency_amount"])
      else cq0
    if state.pending_missing_info = ["currency_amount"] ∧ currency_query.isNone ∧
        !is_numeric_amount user_message then
      { action := Action.ASK_CLARIFICATION, missing_info := ["currency_amount"],
        notes := some "Still missing currency_amount (sticky slot)" }
    else
      match currency_query with
      | none =>
        match parse_currency_pair user_message with
        | some _ =>
          { action := Action.ASK_CLARIFICATION, missing_info := ["currency_amount"],
            notes := some "Currency conversion missing amount (pair detected)" }
        | none =>
          { action := Action.ASK_CLARIFICATION, missing_info := ["currency_pair"],
            notes := some "Currency conversion missing currency pair" }
      | some q =>
        { action := Action.CALL_TOOL, tool_name := some "currency",
          tool_payload := some ⟨q.amount, q.from_ccy, q.to_ccy⟩,
          notes := some "Currency conversion -> call tool (use resolved currency_query; no re-parse in FlowController)" }
  else if intent = Intent.ITINERARY_PLANNING ∨ intent = Intent.ATTRACTIONS_RECOMMENDATIONS ∨
      intent = Intent.PACKING_LIST then
    { action := Action.GENERATE_RESPONSE,
      notes := some (intent.value ++ " -> generate response") }
  else
    { action := Action.GENERATE_RESPONSE,
      notes := some ("Default fallback routing for intent=" ++ intent.value) }

/-! ## Clarification questions (`backend/utils/clarification.py`) -/

/-- `build_clarification_question`: one deterministic question per slot key. -/
def build_clarification_question (missing_info : List String) : String :=
  match missing_info with
  | [] => "What details can you share about your trip (destination and dates)?"
  | first :: _ =>
    if first = "destination" then "Where are you traveling to (city/country)?"
    else if first = "dates" ∨ first = "dates_or_duration" then
      "What are your travel dates (or how many days is the trip)?"
    else if first = "budget" then "What’s your budget level (low / mid / high)?"
    else if first = "travelers" then
      "Who’s traveling (solo / couple / friends / family, kids yes/no)?"
    else if first = "interests" then
      "What are your interests (e.g., food, museums, nature, nightlife)?"
    else if first = "pace" then "What pace do you prefer (relaxed / balanced / intense)?"
    else if first = "goal" then
      "What would you like help with: itinerary, attractions, packing, weather, or currency conversion?"
    else if first = "currency_pair" then
      "Which currencies are you converting between? (e.g., USD to EUR)\nThen tell me the amount (e.g., 100)."
    else if first = "currency_amount" then
      "What amount do you want to convert? (e.g., 100)"
    else if first = "currency_from" then "What is the FROM currency? (e.g., USD)"
    else if first = "currency_to" then "What is the TO currency? (e.g., EUR)"
    else
      "What’s one more detail about your trip that matters most (destination, dates, budget, travelers)?"

/-! ## Trust layer (`backend/core/trust_layer.py`) -/

/-- The first-day summary attached by the weather tool, with numeric values
carried as their rendered text (they are only ever interpolated into messages). -/
structure WToday where
  temp_min_c : Option String := none
  temp_max_c : Option String := none
  precip_mm : Option String := none
deriving DecidableEq, Repr

/-- Structured tool data handed to the trust layer (`tool_result.data`). -/
structure ToolData where
  location : Option String := none
  timeframe : Option String := none
  today_fields : Option WToday := none
deriving DecidableEq, Repr

/-- `_REALTIME_CLAIMS`. -/
def realtimeClaims : List String :=
  ["real-time", "live data", "right now", "currently", "as of now",
   "i just checked", "i checked online", "i looked it up", "from the internet",
   "according to google"]

/-- `_looks_like_tool_code`. -/
def looks_like_tool_code (text : String) : Bool :=
  let low := pyLower text
  containsStr low "```tool_code" || containsStr low "currency_conversion(" ||
    containsStr low "weather(" || containsStr low "invoke-restmethod"

/-- `_strip_tool_code_fences`. -/
def strip_tool_code_fences (text : String) : String :=
  pyStrip ⟨replaceSub (String.toList "```") []
    (replaceSub (String.toList "```tool_code") [] text.toList)⟩

/-- `_rewrite_no_realtime_claim`: case-insensitive replacement of each
real-time phrase by a neutral one, then strip. -/
def rewrite_no_realtime_claim (text : String) : String :=
  pyStrip ⟨realtimeClaims.foldl
    (fun cur p => replaceSubCI (String.toList p) (String.toList "based on available info") cur)
    text.toList⟩

/-- `_user_requested_exact_daily`. -/
def user_requested_exact_daily (user_message : String) : Bool :=
  let u := pyLower user_message
  ["exact daily", "day-by-day", "day by day", "each day", "every day",
   "for each day", "daily highs", "daily lows", "precipitation in mm for each day",
   "exact highs", "exact lows", "exact precipitation"].any (fun t => containsStr u t)

/-- `_user_requested_live`. -/
def user_requested_live (user_message : String) : Bool :=
  let u := pyLower user_message
  ["right now", "live", "currently", "as of now", "exact temperature", "0.1"].any
    (fun t => containsStr u t)

/-- Consume literal segments separated by `\s*`. -/
def matchSegsSp : List (List Char) → List Char → Option (List Char)
  | [], r => some r
  | seg :: segs, r =>
    let (_, r1) := spaceRun r
    if seg.isPrefixOf r1 then matchSegsSp segs (r1.drop seg.length) else none

/-- Body of `\b-?\d{1,maxD}\s*°\s*letter\b` after the sign question is settled. -/
def matchDegNum (maxD : Nat) (letter : Char) (l : List Char) : Bool :=
  let (ds, r) := digitRun l
  if ds.isEmpty || maxD < ds.length then false
  else
    match matchSegsSp [['°'], [letter]] r with
    | some r' => boundaryAfter r'
    | none => false

/-- `\b-?\d{1,maxD}\s*°\s*letter\b` at the current position; when the match
starts with `-` the leading `\b` demands the previous character be a word
character (the sign itself is not one). -/
def matchDegAt (prev : Option Char) (maxD : Nat) (letter : Char) (l : List Char) : Bool :=
  match l with
  | '-' :: r =>
    (match prev with
     | some p => isWordChar p
     | none => false) && matchDegNum maxD letter r
  | _ => boundaryBefore prev && matchDegNum maxD letter l

/-- `\b\d{1,maxD}\s*unit\b` at the current position (leading `\b` checked by caller). -/
def matchNumUnitAt (maxD : Nat) (unit : List Char) (l : List Char) : Bool :=
  let (ds, r) := digitRun l
  if ds.isEmpty || maxD < ds.length then false
  else
    match matchSegsSp [unit] r with
    | some r' => boundaryAfter r'
    | none => false

/-- `\b(word)s?\s+of\s+\d{1,2}\b` at the current position. -/
def matchHighsLowsAt (word : List Char) (l : List Char) : Bool :=
  if word.isPrefixOf l then
    let r := l.drop word.length
    let tryTail : List Char → Bool := fun r =>
      let (sp, r1) := spaceRun r
      if sp.isEmpty then false
      else if ['o', 'f'].isPrefixOf r1 then
        let r2 := r1.drop 2
        let (sp2, r3) := spaceRun r2
        if sp2.isEmpty then false
        else
          let (ds, r4) := digitRun r3
          !ds.isEmpty && ds.length ≤ 2 && boundaryAfter r4
      else false
    match r with
    | 's' :: r' => tryTail r' || tryTail r
    | _ => tryTail r
  else false

/-- Any forecast-number pattern of `_contains_specific_forecast_numbers`
at the current position. -/
def weatherNumberPatternAt (prev : Option Char) (l : List Char) : Bool :=
  matchDegAt prev 2 'c' l || matchDegAt prev 3 'f' l ||
    (boundaryBefore prev &&
      (matchNumUnitAt 3 (String.toList "mm") l ||
        matchNumUnitAt 3 (String.toList "km/h") l ||
        matchNumUnitAt 3 (String.toList "kmh") l ||
        matchHighsLowsAt (String.toList "high") l ||
        matchHighsLowsAt (String.toList "low") l))

/-- Scan the whole text for a forecast-number pattern. -/
def weatherNumbersScan : Option Char → List Char → Bool
  | _, [] => false
  | prev, c :: rest =>
    weatherNumberPatternAt prev (c :: rest) || weatherNumbersScan (some c) rest

/-- `_contains_specific_forecast_numbers`. -/
def contains_specific_forecast_numbers (text : String) (user_message : String) : Bool :=
  let low := pyLower text
  let user_low := pyLower user_message
  let seasonal_markers : List String :=
    ["typical", "usually", "generally", "on average", "average", "around",
     "roughly", "expect average", "seasonal", "in general", "often",
     "range of", "ranges from", "between"]
  if seasonal_markers.any (fun m => containsStr low m) &&
      !user_requested_exact_daily user_message then
    false
  else
    let specific_request_markers : List String :=
      ["exact", "daily", "each day", "day-by-day", "right now", "live",
       "currently", "today", "tomorrow", "on "]
    let strict := specific_request_markers.any (fun m => containsStr user_low m)
    let has_numbers := weatherNumbersScan none low.toList
    let forecast_claim_markers : List String :=
      ["on ", "tomorrow", "today", "this weekend", "next week",
       "expect a high of", "expect a low of"]
    let sounds_like_forecast := forecast_claim_markers.any (fun m => containsStr low m)
    has_numbers && (strict || sounds_like_forecast)

/-- The three-letter codes of the currency rate patterns. -/
def currencyCodes : List (List Char) :=
  ["usd", "eur", "ils", "gbp", "jpy"].map String.toList

/-- `\b(w1)\s+(w2)\s+\d+(\.\d+)?\b` at the current position (leading `\b` by
caller).  When a fraction follows the digits the trailing `\b` always succeeds
after backtracking the optional group, since `.` is not a word character. -/
def matchWordsNumAt (w1 w2 : List Char) (l : List Char) : Bool :=
  if w1.isPrefixOf l then
    let r := l.drop w1.length
    let (sp, r1) := spaceRun r
    if sp.isEmpty then false
    else if w2.isPrefixOf r1 then
      let r2 := r1.drop w2.length
      let (sp2, r3) := spaceRun r2
      if sp2.isEmpty then false
      else
        let (ds, r4) := digitRun r3
        !ds.isEmpty && ((fracSplit r4).isSome || boundaryAfter r4)
    else false
  else false

/-- `\b\d+(\.\d+)?\s*(usd|eur|ils|gbp|jpy)\b` at the current position. -/
def matchNumCodeAt (l : List Char) : Bool :=
  let (ds, r) := digitRun l
  if ds.isEmpty then false
  else
    let tryRest : List Char → Bool := fun r =>
      let (_, r1) := spaceRun r
      currencyCodes.any (fun code =>
        code.isPrefixOf r1 && boundaryAfter (r1.drop code.length))
    match fracSplit r with
    | some (_, r') => tryRest r' || tryRest r
    | none => tryRest r

/-- `\b(usd|eur|ils|gbp|jpy)\s*\d+(\.\d+)?\b` at the current position. -/
def matchCodeNumAt (l : List Char) : Bool :=
  currencyCodes.any (fun code =>
    code.isPrefixOf l &&
      (let r := l.drop code.length
       let (_, r1) := spaceRun r
       let (ds, r2) := digitRun r1
       !ds.isEmpty && ((fracSplit r2).isSome || boundaryAfter r2)))

/-- `[$€₪]\s*\d+(\.\d+)?` at the current position (no boundaries). -/
def matchSymNumAt : List Char → Bool
  | c :: r =>
    (c = '$' || c = '€' || c = '₪') &&
      (let (_, r1) := spaceRun r
       !(digitRun r1).1.isEmpty)
  | [] => false

/-- `\bexchange\s+rate\b.*\d` at the current position; `.` does not cross a
newline. -/
def matchExchangeRateAt (l : List Char) : Bool :=
  (String.toList "exchange").isPrefixOf l &&
    (let r := l.drop 8
     let (sp, r1) := spaceRun r
     !sp.isEmpty && (String.toList "rate").isPrefixOf r1 &&
       (let r2 := r1.drop 4
        boundaryAfter r2 && (r2.takeWhile (fun c => c ≠ '\n')).any Char.isDigit))

/-- Any currency rate/conversion pattern at the current position. -/
def currencyRatePatternAt (prev : Option Char) (l : List Char) : Bool :=
  (boundaryBefore prev &&
    (matchWordsNumAt (String.toList "rate") (String.toList "of") l ||
      matchNumCodeAt l || matchCodeNumAt l ||
      matchWordsNumAt (String.toList "converts") (String.toList "to") l ||
      matchExchangeRateAt l))
  || matchSymNumAt l

/-- Scan the whole text for a currency rate/conversion pattern. -/
def currencyRateScan : Option Char → List Char → Bool
  | _, [] => false
  | prev, c :: rest =>
    currencyRatePatternAt prev (c :: rest) || currencyRateScan (some c) rest

/-- `_contains_currency_rate_or_conversion`. -/
def contains_currency_rate_or_conversion (text : String) : Bool :=
  if text = "" then false
  else currencyRateScan none (pyLower text).toList

/-- `_safe_weather_without_tool`. -/
def safe_weather_without_tool (user_message : String) : String :=
  let u := pyLower user_message
  if ["right now", "live", "currently", "today"].any (fun k => containsStr u k) then
    "I can’t guarantee a *live* weather reading without calling the weather API.\n\nIf you confirm the city (e.g., Paris) I can fetch today’s forecast from the tool, or I can give seasonal guidance if you’re planning ahead."
  else if ["in january", "in february", "in march", "in april", "in may", "in june",
      "in july", "in august", "in september", "in october", "in november",
      "in december", "this winter", "this summer", "season"].any
      (fun k => containsStr u k) then
    "I can’t provide exact day-by-day numbers that far in advance. Forecasts are typically reliable only up to ~16 days ahead.\n\nIf you want, tell me your rough dates or how sensitive you are to rain/cold, and I’ll give seasonal expectations + a packing list."
  else
    "I can’t fetch an exact forecast for that date right now (forecasts are typically only available/reliable up to ~16 days ahead).\n\nIf you share your dates (or even just the month), I can give seasonal expectations and packing advice."

/-- `_safe_currency_without_tool`. -/
def safe_currency_without_tool : String :=
  "I can help convert currency, but I couldn’t fetch a live exchange rate right now.\nPlease send it like: **“100 USD to EUR”** (amount + from + to)."

/-- `_safe_live_weather_response`. -/
def safe_live_weather_response (tool_data : Option ToolData) : String :=
  match tool_data with
  | some td =>
    let loc := td.location.getD "that city"
    let timeframe := td.timeframe.getD "today"
    let today := td.today_fields.getD {}
    let parts := ["I can’t guarantee a *live right-now* temperature reading to 0.1°C."]
    let parts := parts ++
      [s!"What I *can* fetch is today’s forecast summary for {loc} ({timeframe})."]
    let parts := parts ++
      (match today.temp_min_c, today.temp_max_c with
       | some tmin, some tmax => [s!"Today’s forecast range: low {tmin}°C, high {tmax}°C."]
       | _, _ => [])
    let parts := parts ++
      (match today.precip_mm with
       | some p => [s!"Forecast precipitation: {p} mm."]
       | none => [])
    let parts := parts ++
      ["If you still need *current observed temperature*, use a live weather app/station feed."]
    String.intercalate "\n\n" parts
  | none =>
    "I can’t guarantee a *live right-now* weather reading without calling the weather API.\n\nIf you confirm the city (e.g., Paris) I can fetch today’s forecast from the tool."

/-- `TrustLayer.apply`. -/
def trust_apply (intent : Intent) (assistant_text : String) (tool_data : Option ToolData)
    (user_message : Option String) : TrustResult :=
  let text := pyStrip assistant_text
  if text = "" then ⟨text, false, []⟩
  else
    let step1 : List String × String :=
      if looks_like_tool_code text then (["tool_code_leak"], strip_tool_code_fences text)
      else ([], text)
    let reasons := step1.1
    let text := step1.2
    let low := pyLower text
    let realtime_hit := realtimeClaims.any (fun p => containsStr low p)
    let step2 : List String × String :=
      if realtime_hit &&
          !(intent = Intent.WEATHER_QUERY && user_requested_live (user_message.getD "")) then
        (reasons ++ ["realtime_claim"], rewrite_no_realtime_claim text)
      else (reasons, text)
    let reasons := step2.1
    let text := step2.2
    let step3 : List String × String :=
      if intent = Intent.WEATHER_QUERY then
        let u := user_message.getD ""
        if tool_data.isNone && user_requested_exact_daily u then
          (reasons ++ ["exact_daily_weather_without_tool"], safe_weather_without_tool u)
        else if user_requested_live u then
          (reasons ++ ["live_weather_request"], safe_live_weather_response tool_data)
        else if tool_data.isNone && contains_specific_forecast_numbers text u then
          (reasons ++ ["weather_numbers_without_tool"], safe_weather_without_tool u)
        else (reasons, text)
      else (reasons, text)
    let reasons := step3.1
    let text := step3.2
    let step4 : List String × String :=
      if intent = Intent.CURRENCY_CONVERSION && tool_data.isNone &&
          contains_currency_rate_or_conversion text then
        (reasons ++ ["currency_numbers_without_tool"], safe_currency_without_tool)
      else (reasons, text)
    ⟨step4.2, !step4.1.isEmpty, step4.1⟩

/-! ## Recovery ladder (`backend/core/fallback_handler.py`) -/

/-- `_GOAL_INTENTS`: the five actively pursued goals. -/
def isGoalIntent : Intent → Bool
  | Intent.ITINERARY_PLANNING => true
  | Intent.ATTRACTIONS_RECOMMENDATIONS => true
  | Intent.PACKING_LIST => true
  | Intent.WEATHER_QUERY => true
  | Intent.CURRENCY_CONVERSION => true
  | _ => false

/-- Python `x in _GOAL_INTENTS` for an optional intent (`None` is never a member). -/
def optIsGoal : Option Intent → Bool
  | some i => isGoalIntent i
  | none => false

/-- `build_system_prompt` (`backend/prompts/system_prompt.py`); the scope /
source-of-truth / output-rule text, whose exact wording is irrelevant to
control flow (it is only ever handed to the generation collaborator). -/
def build_system_prompt : String :=
  "You are a helpful Travel Assistant.\n\nSCOPE:\n- Only help with travel planning: itineraries, attractions, packing, weather, constraints updates, and currency conversion.\n\nSOURCE OF TRUTH:\n- Use only the trip context and any tool data provided.\n\nOUTPUT RULE:\n- If key info is missing, ask at most ONE short clarification question."

/-- `build_fallback_prompt` (`backend/prompts/fallback_prompt.py`); the trip
context is rendered in an abbreviated form, since the prompt string is only
ever handed opaque to the generation collaborator. -/
def build_fallback_prompt (intent : Option Intent) (state : State) (user_message : String)
    (recent_messages : List (String × String)) (error : Option String) : String :=
  let intentBlock := match intent with
    | some i => i.value
    | none => "unknown"
  let historyBlock := String.intercalate "\n" (recent_messages.map (fun m => m.1 ++ ": " ++ m.2))
  let errBlock := match error with
    | some e => "\n\nERROR (for context only, do not mention to user):\n" ++ e
    | none => ""
  "FALLBACK MODE. Intent: " ++ intentBlock ++ "\nTrip context: " ++
    (state.trip_profile.destination.getD "") ++ "\n\nRecent conversation:\n" ++
    historyBlock ++ errBlock ++ "\n\nUser message:\n" ++ user_message

/-- The fixed goal-selection question of recovery steps 2 and 4. -/
def goal_selection_message : String :=
  "What would you like help with: itinerary, attractions, packing, weather, or currency conversion?"

/-- The canned last-resort message when even the fallback generation attempt
comes back empty. -/
def exhausted_recovery_message : String :=
  "I can help with itineraries, attractions, packing, weather, or currency conversion. What would you like to do next?"

/-- The standing goal of a session, as `recover` computes it. -/
def recover_active_goal (state : State) : Option Intent :=
  match state.last_intent with
  | some i => if isGoalIntent i then some i else none
  | none => none

/-- The goal `recover` validates and resumes: the incoming flow intent when it
is a goal, else the standing goal. -/
def recover_goal (state : State) (intent_for_flow : Option Intent) : Option Intent :=
  if optIsGoal intent_for_flow then intent_for_flow else recover_active_goal state

/-- `FallbackHandler.recover`.  The generation collaborator (`GeminiClient`
construction plus `generate_text`) is an oracle; `Except.error` models any
exception it raises (missing API key, API failure, empty model response),
which the source does not catch. -/
def recover (state : State) (user_message : String) (intent_for_flow : Option Intent)
    (recent_messages : List (String × String)) (error : Option String)
    (gen : String → Except String String) : Except String FallbackResult :=
  if state.pending_missing_info ≠ [] then
    let pending := state.pending_missing_info.take 1
    Except.ok ⟨build_clarification_question pending, false, pending, none⟩
  else
    let active_goal : Option Intent := recover_active_goal state
    if active_goal.isNone && !optIsGoal intent_for_flow then
      Except.ok ⟨goal_selection_message, false, ["goal"], none⟩
    else
      let goal : Option Intent := recover_goal state intent_for_flow
      let stepThree : Option FallbackResult :=
        match goal with
        | some g =>
          let validation := validate g state
          if !validation.ok then
            let pending := validation.missing_info.take 1
            some ⟨build_clarification_question pending, false, pending, goal⟩
          else none
        | none => none
      match stepThree with
      | some r => Except.ok r
      | none =>
        let full_prompt := build_system_prompt ++ "\n\n" ++
          build_fallback_prompt goal state user_message recent_messages error
        match gen full_prompt with
        | Except.error e => Except.error e
        | Except.ok raw =>
          let text := pyStrip raw
          if text = "" then
            Except.ok ⟨exhausted_recovery_message, false, ["goal"], goal⟩
          else
            Except.ok ⟨text, true, [], goal⟩

/-! ## Session store operations (`backend/core/state_manager.py`) -/

/-- `StateManager.add_message`: append, refresh the timestamp, trim to the
last `max_history` messages. -/
def add_message (max_history : Nat) (now : Nat) (state : State) (role content : String) :
    State :=
  let hist := state.conversation_history ++ [⟨role, content, now⟩]
  let hist := if max_history < hist.length then hist.drop (hist.length - max_history) else hist
  { state with conversation_history := hist, updated_at := now }

/-- `StateManager.increment_turn`. -/
def increment_turn (now : Nat) (state : State) : State :=
  { state with turn_count := state.turn_count + 1, updated_at := now }

/-! ## Turn orchestrator (`backend/core/flow_controller.py`)

The external collaborators the orchestrator blocks on — intent classifier,
tool clients, response generator, and the (injectable) decision logic and
fallback handler — are modelled as oracles collected in `Env`; the ambient
wall clock becomes the explicit `today` / `now` fields. -/

/-- Outcome of a tool-client call: structured data (`ok = True`), a reported
failure (`ok = False`), or a raised exception. -/
inductive ToolOutcome where
  | ok (data : ToolData)
  | err
  | raised (msg : String)

/-- Outcome of a response-generator call. -/
inductive GenOutcome where
  | ok (text : String)
  | raised (msg : String)

/-- The part of the intent-classifier result the orchestrator consumes. -/
structure IntentResult where
  intent : Intent
  extracted_updates : Option Updates := none

/-- Oracles for one turn. -/
structure Env where
  today : PyDate
  now : Nat
  intent_result : IntentResult
  decideFn : Intent → ValidationResult → String → State → Option Decision
  recoverFn : State → String → Intent → FallbackResult
  weather_tool : TripProfile → ToolOutcome
  currency_tool : ℚ → String → String → ToolOutcome
  gen_response : Option ToolData → GenOutcome

/-- `FlowController._infer_pending_from_assistant`. -/
def infer_pending_from_assistant (assistant_text : String) (intent : Intent) (state : State) :
    List String :=
  if assistant_text = "" ∨ !endsWithQuestionMark assistant_text then []
  else
    let stepGoal : Option (List String) :=
      if isGoalIntent intent ∧ intent ≠ Intent.CURRENCY_CONVERSION then
        let vr := validate intent state
        if vr.missing_info ≠ [] then some (vr.missing_info.take 1) else none
      else none
    match stepGoal with
    | some r => r
    | none =>
      let stepCurrency : Option (List String) :=
        if intent = Intent.CURRENCY_CONVERSION then
          let low := pyLower assistant_text
          if containsStr low "between" || containsStr low "which currencies" then
            some ["currency_pair"]
          else if containsStr low "amount" || containsStr low "how much" then
            some ["currency_amount"]
          else if containsStr low "from" && containsStr low "currency" then
            some ["currency_from"]
          else if containsStr low "to" && containsStr low "currency" then
            some ["currency_to"]
          else none
        else none
      match stepCurrency with
      | some r => r
      | none =>
        let low := pyLower assistant_text
        if containsStr low "interest" then ["interests"]
        else if containsStr low "budget" then ["budget"]
        else if containsStr low "who" || containsStr low "traveling" then ["travelers"]
        else if containsStr low "pace" then ["pace"]
        else if containsStr low "month" then ["dates_or_duration"]
        else if containsStr low "date" || containsStr low "when" then ["dates_or_duration"]
        else if containsStr low "where" || containsStr low "city" || containsStr low "country" then
          ["destination"]
        else []

/-- `FlowController._looks_like_full_month_range`. -/
def looks_like_full_month_range (s e : PyDate) : Bool :=
  s.year = e.year && s.month = e.month && s.day = 1 &&
    (e.day = 28 || e.day = 29 || e.day = 30 || e.day = 31)

/-- `\b(19|20)\d{2}\b`: a four-digit year in the message. -/
def yearScan : Option Char → List Char → Bool
  | _, [] => false
  | prev, c :: rest =>
    (boundaryBefore prev &&
      (match c :: rest with
       | a :: b :: d1 :: d2 :: r =>
         ((a = '1' && b = '9') || (a = '2' && b = '0')) && d1.isDigit && d2.isDigit &&
           boundaryAfter r
       | _ => false))
    || yearScan (some c) rest

/-- `re.search(r"\b(19|20)\d{2}\b", msg)` as a boolean. -/
def has_year (msg : String) : Bool :=
  yearScan none msg.toList

/-- `FlowController._guardrail_roll_month_without_year_forward`: roll a
month-without-year full-month range forward by one year when it lies in the
past; when the rolled date is invalid (Feb 29), clear both dates to force
clarification. -/
def guardrail_roll_month_without_year_forward (today : PyDate) (user_message : String)
    (state : State) : State :=
  if !(mentions_month user_message && !has_year user_message) then state
  else
    match state.trip_profile.start_date, state.trip_profile.end_date with
    | some s, some e =>
      if looks_like_full_month_range s e && PyDate.lt e today then
        match s.replaceYear (s.year + 1), e.replaceYear (e.year + 1) with
        | some s', some e' =>
          { state with trip_profile :=
            { state.trip_profile with start_date := some s', end_date := some e' } }
        | _, _ =>
          { state with trip_profile :=
            { state.trip_profile with start_date := none, end_date := none } }
      else state
    | _, _ => state

/-- Fixed refusal text of the out-of-scope action. -/
def out_of_scope_text : String :=
  "I can help with travel planning only (itineraries, attractions, packing, weather, currency conversion). What would you like to do?"

/-- Fixed degraded-service message on a weather-tool failure. -/
def degraded_weather_message : String :=
  "I couldn’t fetch weather info right now. If you tell me your dates (or month), I can still give general seasonal packing tips."

/-- Fixed degraded-service message on a currency-tool failure. -/
def degraded_currency_message : String :=
  "I couldn’t fetch the exchange rate right now. Try again in a moment, or share the currencies in the format “100 USD to EUR”."

/-- Defensive hint when a currency call-tool decision carries no payload. -/
def currency_format_hint : String :=
  "To convert currency, tell me something like: “100 USD to EUR”."

/-- Fallback for an unrecognized tool name. -/
def unknown_tool_text : String :=
  "I can’t run that tool right now. What would you like to do next?"

/-- `FlowController._execute_decision`.  Returns the produced text and the
(possibly mutated) state; `Except.error` models an exception escaping the
executor into `handle_turn`'s try-block.  The only mutation the executor
performs — restoring `last_intent` from `primary_intent` after a successful
currency call — happens after every possible raise, so an error needs no
state. -/
def execute_decision (env : Env) (decision : Decision) (state : State) (intent : Intent)
    (user_message : String) : Except String (String × State) :=
  if decision.action = Action.OUT_OF_SCOPE_RESPONSE then
    Except.ok (out_of_scope_text, state)
  else if decision.action = Action.ASK_CLARIFICATION then
    Except.ok (build_clarification_question decision.missing_info, state)
  else if decision.action = Action.CALL_TOOL then
    if decision.tool_name = some "weather" then
      match env.weather_tool state.trip_profile with
      | ToolOutcome.ok data =>
        match env.gen_response (some data) with
        | GenOutcome.ok text =>
          let trust := trust_apply intent text (some data) (some user_message)
          Except.ok (trust.text, state)
        | GenOutcome.raised e => Except.error e
      | ToolOutcome.err => Except.ok (degraded_weather_message, state)
      | ToolOutcome.raised e => Except.error e
    else if decision.tool_name = some "currency" then
      match decision.tool_payload with
      | none => Except.ok (currency_format_hint, state)
      | some payload =>
        match env.currency_tool payload.amount payload.from_ccy payload.to_ccy with
        | ToolOutcome.ok data =>
          match env.gen_response (some data) with
          | GenOutcome.ok text =>
            let trust := trust_apply intent text (some data) (some user_message)
            let state := if state.primary_intent.isSome then
                { state with last_intent := state.primary_intent }
              else state
            Except.ok (trust.text, state)
          | GenOutcome.raised e => Except.error e
        | ToolOutcome.err => Except.ok (degraded_currency_message, state)
        | ToolOutcome.raised e => Except.error e
    else
      Except.ok (unknown_tool_text, state)
  else
    match env.gen_response none with
    | GenOutcome.ok text => Except.ok (text, state)
    | GenOutcome.raised e => Except.error e

/-- The shared recovery sequence of `handle_turn` (run when the decision is
missing, when execution raises, or when execution returns empty text):
take the fallback message, set the pending slot from the fallback result or
the inference heuristic, and adopt a resolved goal intent. -/
def recovery_step (env : Env) (state : State) (user_message : String)
    (intent_for_flow : Intent) : String × State :=
  let fb := env.recoverFn state user_message intent_for_flow
  let assistant_text := fb.message
  let state := { state with pending_missing_info :=
    if fb.pending_missing_info ≠ [] then fb.pending_missing_info.take 1
    else infer_pending_from_assistant assistant_text intent_for_flow state }
  let state := match fb.resolved_intent with
    | some g => if isGoalIntent g then { state with last_intent := some g } else state
    | none => state
  (assistant_text, state)

/-- `TurnResponse`. -/
structure TurnResponse where
  session_id : String
  assistant_message : String
deriving DecidableEq, Repr

/-- Merge the extracted trip updates into the session profile; the flag
reports the uncaught date-parse `ValueError`. -/
def turn_profile_update (env : Env) (state : State) : State × Bool :=
  let applied := apply_updates state.trip_profile (env.intent_result.extracted_updates.getD {})
  ({ state with trip_profile := applied.1 }, applied.2)

/-- Normalize the classifier's intent for flow: a constraints update continues
the active goal (or falls back to asking for a goal). -/
def turn_intent_for_flow (env : Env) (prev_intent : Option Intent) : Intent :=
  let active_goal : Option Intent := match prev_intent with
    | some i => if isGoalIntent i then some i else none
    | none => none
  if env.intent_result.intent = Intent.CONSTRAINTS_UPDATE then
    active_goal.getD Intent.CLARIFICATION_NEEDED
  else env.intent_result.intent

/-- Intent bookkeeping: a goal intent becomes `last_intent`, and — unless it
is the currency interrupt — also the `primary_intent`. -/
def turn_bookkeeping (intent_for_flow : Intent) (state : State) : State :=
  if isGoalIntent intent_for_flow then
    let state := { state with last_intent := some intent_for_flow }
    if intent_for_flow ≠ Intent.CURRENCY_CONVERSION then
      { state with primary_intent := some intent_for_flow }
    else state
  else state

/-- The front half of `handle_turn`: record the user message, merge extracted
trip updates, run the month-roll guardrail, normalize the intent for flow,
update the intent bookkeeping, and count the turn.  `none` models the turn
aborting with the uncaught `ValueError` a malformed date update raises inside
`TripProfile.apply_updates`. -/
def turn_prelude (env : Env) (user_message : String) (state0 : State) :
    Option (Intent × State) :=
  if (turn_profile_update env (add_message 12 env.now state0 "user" user_message)).2 then
    none
  else
    some (turn_intent_for_flow env state0.last_intent,
      increment_turn env.now
        (turn_bookkeeping (turn_intent_for_flow env state0.last_intent)
          (guardrail_roll_month_without_year_forward env.today user_message
            (turn_profile_update env (add_message 12 env.now state0 "user" user_message)).1)))

/-- The single-slot pending update made once a decision exists: the decision's
first clarification slot, a carried-over sticky `currency_amount`, or empty. -/
def decision_pending_update (decision : Decision) (prev_pending : List String)
    (intent_for_flow : Intent) (state : State) : State :=
  if decision.action = Action.ASK_CLARIFICATION then
    { state with pending_missing_info := decision.missing_info.take 1 }
  else if prev_pending = ["currency_amount"] ∧
      intent_for_flow ≠ Intent.CURRENCY_CONVERSION then
    { state with pending_missing_info := prev_pending }
  else
    { state with pending_missing_info := [] }

/-- If the model asked a question on a generate-response turn and no slot is
pending, infer which slot it asked for. -/
def generate_infer_update (decision : Decision) (intent_for_flow : Intent)
    (assistant_text : String) (state : State) : State :=
  if decision.action = Action.GENERATE_RESPONSE ∧ state.pending_missing_info = [] then
    { state with pending_missing_info :=
      infer_pending_from_assistant assistant_text intent_for_flow state }
  else state

/-- The execution stage of `handle_turn`: run the decision inside the
try-block; on a raise or empty text, recover (the except-handler sees any
state mutation the executor made before returning). -/
def turn_execute (env : Env) (decision : Decision) (state : State)
    (intent_for_flow : Intent) (user_message : String) : String × State :=
  match execute_decision env decision state intent_for_flow user_message with
  | Except.ok (text, state') =>
    if pyStrip text = "" then recovery_step env state' user_message intent_for_flow
    else (text, state')
  | Except.error _ => recovery_step env state user_message intent_for_flow

/-- `FlowController.handle_turn` for one inbound message, starting from the
stored (or fresh) session state.  `none` models the turn aborting with the
uncaught `ValueError` a malformed date update raises inside
`TripProfile.apply_updates`; every other failure is caught and recovered. -/
def handle_turn (env : Env) (session_id : String) (user_message : String) (state0 : State) :
    Option (TurnResponse × State) :=
  let prev_pending := state0.pending_missing_info
  match turn_prelude env user_message state0 with
  | none => none
  | some (intent_for_flow, state) =>
    let validation := validate intent_for_flow state
    match env.decideFn intent_for_flow validation user_message state with
    | none =>
      let recovered := recovery_step env state user_message intent_for_flow
      let trust := trust_apply intent_for_flow recovered.1 none (some user_message)
      let assistant_text := trust.text
      let state := add_message 12 env.now recovered.2 "assistant" assistant_text
      some (⟨session_id, assistant_text⟩, state)
    | some decision =>
      let state := decision_pending_update decision prev_pending intent_for_flow state
      let execResult := turn_execute env decision state intent_for_flow user_message
      let assistant_text :=
        if decision.action ≠ Action.CALL_TOOL then
          (trust_apply intent_for_flow execResult.1 none (some user_message)).text
        else execResult.1
      let state := generate_infer_update decision intent_for_flow assistant_text execResult.2
      let state := add_message 12 env.now state "assistant" assistant_text
      some (⟨session_id, assistant_text⟩, state)

/-! ## Claims -/

/-- C2 counterexample: a call-tool `Decision` without a `tool_payload` is
accepted at construction — exactly the decision the router builds for the
weather tool — so tool payload presence is not equivalent to the call-tool
action, refuting the claimed two-sided invariant. -/
theorem mkDecision_calltool_accepts_missing_payload :
    mkDecision Action.CALL_TOOL [] (some "weather")
        (some "Weather query within horizon -> call tool") none =
      Except.ok
        { action := Action.CALL_TOOL, missing_info := [],
          tool_name := some "weather",
          notes := some "Weather query within horizon -> call tool",
          tool_payload := none } :=
  rfl

/-- C2 (amended): every `Decision` accepted by the construction-time validator
has a (truthy) tool name when its action is call-tool, and carries neither
tool name nor tool payload otherwise; a payload is allowed, but not required,
on a call-tool decision. -/
theorem mkDecision_tool_fields_invariant (a : Action) (mi : List String)
    (tn : Option String) (notes : Option String) (tp : Option ToolPayload)
    (d : Decision) (h : mkDecision a mi tn notes tp = Except.ok d) :
    (d.action = Action.CALL_TOOL → toolNameTruthy d.tool_name = true) ∧
    (d.action ≠ Action.CALL_TOOL → d.tool_name = none ∧ d.tool_payload = none) := by
  unfold mkDecision Decision.check_tool_name at h
  split at h
  · exact absurd h (by simp)
  · split at h
    · exact absurd h (by simp)
    · split at h
      · exact absurd h (by simp)
      · rename_i h1 h2 h3
        cases h
        by_cases hc : a = Action.CALL_TOOL
        · refine ⟨fun _ => ?_, fun hne => absurd hc hne⟩
          simpa [hc] using h1
        · refine ⟨fun heq => absurd heq hc, fun _ => ?_⟩
          constructor
          · by_contra hn
            exact h2 (by simp [hc, Option.isSome_iff_ne_none, (by simpa using hn : tn ≠ none)])
          · by_contra hn
            exact h3 (by simp [hc, Option.isSome_iff_ne_none, (by simpa using hn : tp ≠ none)])

/-- C2 witness: the router's clarification decision is accepted and carries
neither tool name nor payload. -/
theorem mkDecision_tool_fields_invariant_witness :
    ({ action := Action.ASK_CLARIFICATION, missing_info := ["goal"],
       notes := some "User message unclear -> ask for goal" } : Decision).tool_name = none ∧
    ({ action := Action.ASK_CLARIFICATION, missing_info := ["goal"],
       notes := some "User message unclear -> ask for goal" } : Decision).tool_payload = none :=
  (mkDecision_tool_fields_invariant Action.ASK_CLARIFICATION ["goal"] none
    (some "User message unclear -> ask for goal") none _ rfl).2 (by decide)

/-- The exact assistant text of the C4 scenario. -/
def c4_input : String :=
  "The rate is 0.84, so 100 USD converts to 84.00 EUR"

/-- C4 counterexample: on the claimed input the trust layer does flag
`currency_numbers_without_tool`, but its rewritten output still contains a
currency/number pattern — the fixed replacement message itself quotes
`“100 USD to EUR”`, which matches the code-adjacent-to-number pattern. -/
theorem trust_currency_rewrite_still_matches_pattern :
    (trust_apply Intent.CURRENCY_CONVERSION c4_input none none).reasons =
        ["currency_numbers_without_tool"] ∧
    contains_currency_rate_or_conversion
        (trust_apply Intent.CURRENCY_CONVERSION c4_input none none).text = true :=
  ⟨rfl, rfl⟩

/-- C4 (amended): on the claimed input the trust layer flags
`currency_numbers_without_tool` and replaces the text with the fixed
couldn't-fetch-a-live-rate message (which itself still contains the literal
example `“100 USD to EUR”`, hence still matches the currency/number pattern). -/
theorem trust_currency_rewrite_flagged :
    trust_apply Intent.CURRENCY_CONVERSION c4_input none none =
      ⟨safe_currency_without_tool, true, ["currency_numbers_without_tool"]⟩ ∧
    contains_currency_rate_or_conversion c4_input = true :=
  ⟨rfl, rfl⟩

/-- C5: with passing validation, a weather-intent message that mentions a
month name or uses seasonal phrasing is always routed to generate-response,
never to the weather tool. -/
theorem decide_weather_seasonal_never_calls_tool (today : PyDate)
    (validation : ValidationResult) (msg : String) (st : State)
    (hok : validation.ok = true)
    (h : mentions_month msg = true ∨ is_seasonal_weather_question msg = true) :
    (decide today Intent.WEATHER_QUERY validation msg st).action = Action.GENERATE_RESPONSE ∧
    (decide today Intent.WEATHER_QUERY validation msg st).tool_name = none := by
  rcases h with h | h <;>
    simp [decide, hok, h]

/-- C5 witness: a concrete seasonal weather question with valid state. -/
theorem decide_weather_seasonal_never_calls_tool_witness :
    (decide ⟨2026, 10, 12⟩ Intent.WEATHER_QUERY ⟨true, [], []⟩
        "what is the weather usually like in Paris" { session_id := "s" }).action =
      Action.GENERATE_RESPONSE ∧
    (decide ⟨2026, 10, 12⟩ Intent.WEATHER_QUERY ⟨true, [], []⟩
        "what is the weather usually like in Paris" { session_id := "s" }).tool_name = none :=
  decide_weather_seasonal_never_calls_tool ⟨2026, 10, 12⟩ ⟨true, [], []⟩
    "what is the weather usually like in Paris" { session_id := "s" } rfl
    (Or.inr (by decide))

/-- A session state with a destination but an invalid (non-positive) duration:
validation fails for every goal, which defeats the unqualified C10 claim. -/
def c10_state : State :=
  { session_id := "s",
    trip_profile := { destination := some "Paris", duration_days := some (-1) } }

/-- C10 counterexample: both trip dates are unset and a destination is set,
the message mentions no month and no seasonal phrasing, yet the router
answers with a clarification (the profile's non-positive duration fails
validation), not with a call-tool "weather" decision. -/
theorem decide_weather_dates_unset_not_calltool :
    c10_state.trip_profile.start_date = none ∧
    c10_state.trip_profile.end_date = none ∧
    mentions_month "how is the weather there" = false ∧
    is_seasonal_weather_question "how is the weather there" = false ∧
    decide ⟨2026, 10, 12⟩ Intent.WEATHER_QUERY
        (validate Intent.WEATHER_QUERY c10_state) "how is the weather there" c10_state =
      { action := Action.ASK_CLARIFICATION, missing_info := [],
        notes := some "Missing or invalid information" } :=
  ⟨rfl, rfl, rfl, rfl, rfl⟩

/-- C10 (amended): when both trip dates are unset the forecast-horizon check
accepts; consequently a weather-intent message with passing validation, no
month mention and no seasonal phrasing is routed to a call-tool "weather"
decision even though no date window is known. -/
theorem weather_window_open_when_dates_unset :
    (∀ (today : PyDate) (trip : TripProfile), trip.start_date = none →
        trip.end_date = none → is_within_open_meteo_forecast_window today trip = true) ∧
    (∀ (today : PyDate) (validation : ValidationResult) (msg : String) (st : State),
        validation.ok = true →
        st.trip_profile.start_date = none → st.trip_profile.end_date = none →
        mentions_month msg = false → is_seasonal_weather_question msg = false →
        decide today Intent.WEATHER_QUERY validation msg st =
          { action := Action.CALL_TOOL, tool_name := some "weather",
            notes := some "Weather query within horizon -> call tool" }) := by
  constructor
  · intro today trip h1 h2
    simp [is_within_open_meteo_forecast_window, h1, h2]
  · intro today validation msg st hok h1 h2 hm hs
    have hw : is_within_open_meteo_forecast_window today st.trip_profile = true := by
      simp [is_within_open_meteo_forecast_window, h1, h2]
    simp [decide, hok, hm, hs, hw]

/-- C10 witness: a concrete dateless weather request with a destination. -/
theorem weather_window_open_when_dates_unset_witness :
    is_within_open_meteo_forecast_window ⟨2026, 10, 12⟩
        { destination := some "Paris" } = true ∧
    decide ⟨2026, 10, 12⟩ Intent.WEATHER_QUERY ⟨true, [], []⟩ "how is the weather there"
        { session_id := "s", trip_profile := { destination := some "Paris" } } =
      { action := Action.CALL_TOOL, tool_name := some "weather",
        notes := some "Weather query within horizon -> call tool" } :=
  ⟨weather_window_open_when_dates_unset.1 ⟨2026, 10, 12⟩ { destination := some "Paris" } rfl rfl,
   weather_window_open_when_dates_unset.2 ⟨2026, 10, 12⟩ ⟨true, [], []⟩ "how is the weather there"
     { session_id := "s", trip_profile := { destination := some "Paris" } } rfl rfl rfl
     (by decide) (by decide)⟩

/-! ### List-merge lemmas for C6 -/

theorem mergeListField_cons (cur : List String) (item : String) (rest : List String) :
    mergeListField cur (item :: rest) =
      mergeListField
        (if pyStrip item ≠ "" ∧ pyStrip item ∉ cur then cur ++ [pyStrip item] else cur)
        rest :=
  rfl

theorem mergeListField_nodup (upd : List String) :
    ∀ cur : List String, cur.Nodup → (mergeListField cur upd).Nodup := by
  induction upd with
  | nil => intro cur h; exact h
  | cons item rest ih =>
    intro cur h
    rw [mergeListField_cons]
    by_cases hc : pyStrip item ≠ "" ∧ pyStrip item ∉ cur
    · rw [if_pos hc]
      refine ih _ ?_
      simp [List.nodup_append, h, hc.2]
    · rw [if_neg hc]
      exact ih _ h

theorem mergeListField_extends (upd : List String) :
    ∀ cur : List String, cur <+: mergeListField cur upd := by
  induction upd with
  | nil => intro cur; exact List.prefix_refl _
  | cons item rest ih =>
    intro cur
    rw [mergeListField_cons]
    by_cases hc : pyStrip item ≠ "" ∧ pyStrip item ∉ cur
    · rw [if_pos hc]
      exact List.IsPrefix.trans (List.prefix_append _ _) (ih _)
    · rw [if_neg hc]
      exact ih _

theorem mergeListField_mem (upd : List String) :
    ∀ (cur : List String) (item : String), item ∈ upd → pyStrip item ≠ "" →
      pyStrip item ∈ mergeListField cur upd := by
  induction upd with
  | nil => intro _ _ h _; cases h
  | cons hd rest ih =>
    intro cur item hmem hne
    rw [mergeListField_cons]
    rcases List.mem_cons.mp hmem with rfl | hmem'
    · have hstep : pyStrip item ∈
          (if pyStrip item ≠ "" ∧ pyStrip item ∉ cur then cur ++ [pyStrip item] else cur) := by
        by_cases hc : pyStrip item ∉ cur
        · rw [if_pos ⟨hne, hc⟩]; simp
        · rw [if_neg (by tauto)]; exact not_not.mp hc
      exact (mergeListField_extends rest _).subset hstep
    · exact ih _ _ hmem' hne

theorem mergeListField_noop (upd : List String) :
    ∀ cur : List String, (∀ item ∈ upd, pyStrip item = "" ∨ pyStrip item ∈ cur) →
      mergeListField cur upd = cur := by
  induction upd with
  | nil => intro _ _; rfl
  | cons hd rest ih =>
    intro cur h
    rw [mergeListField_cons]
    have hneg : ¬(pyStrip hd ≠ "" ∧ pyStrip hd ∉ cur) := by
      rcases h hd (by simp) with h1 | h1 <;> tauto
    rw [if_neg hneg]
    exact ih _ (fun item hm => h item (by simp [hm]))

theorem mergeListField_idem (cur upd : List String) :
    mergeListField (mergeListField cur upd) upd = mergeListField cur upd := by
  apply mergeListField_noop
  intro item hm
  by_cases hne : pyStrip item = ""
  · exact Or.inl hne
  · exact Or.inr (mergeListField_mem upd cur item hm hne)

theorem applyTextField_idem (cur : Option String) (upd : Option String) :
    applyTextField (applyTextField cur upd) upd = applyTextField cur upd := by
  cases upd with
  | none => rfl
  | some s =>
    by_cases h : pyStrip s = "" <;> simp [applyTextField, h]

theorem applyDateField_idem (cur : Option PyDate) (upd : Option DateUpdate)
    (sd : Option PyDate) (h : applyDateField cur upd = some sd) :
    applyDateField sd upd = some sd := by
  cases upd with
  | none => simpa [applyDateField] using h
  | some du =>
    cases du with
    | d d =>
      simp only [applyDateField] at h ⊢
      exact h
    | s s =>
      by_cases hb : pyStrip s = ""
      · simp only [applyDateField, if_pos hb] at h ⊢
      · simp only [applyDateField, if_neg hb] at h ⊢
        cases hp : fromIsoFormat (pyStrip s) with
        | none => simp only [hp] at h; exact Option.noConfusion h
        | some d => simp only [hp] at h ⊢; exact h

theorem applyDateField_raise_indep (cur cur' : Option PyDate) (upd : Option DateUpdate)
    (h : applyDateField cur upd = none) : applyDateField cur' upd = none := by
  cases upd with
  | none => simp [applyDateField] at h
  | some du =>
    cases du with
    | d d => simp [applyDateField] at h
    | s s =>
      by_cases hb : pyStrip s = ""
      · simp [applyDateField, hb] at h
      · simp only [applyDateField, if_neg hb] at h ⊢
        cases hp : fromIsoFormat (pyStrip s) with
        | none => rfl
        | some d => rw [hp] at h; cases h

theorem apply_updates_tail_destination (p : TripProfile) (u : Updates) :
    (apply_updates_tail p u).destination = p.destination := by
  simp only [apply_updates_tail]
  cases u.duration_days <;> cases u.interests <;> cases u.constraints <;> rfl

theorem apply_updates_tail_start_date (p : TripProfile) (u : Updates) :
    (apply_updates_tail p u).start_date = p.start_date := by
  simp only [apply_updates_tail]
  cases u.duration_days <;> cases u.interests <;> cases u.constraints <;> rfl

theorem apply_updates_tail_end_date (p : TripProfile) (u : Updates) :
    (apply_updates_tail p u).end_date = p.end_date := by
  simp only [apply_updates_tail]
  cases u.duration_days <;> cases u.interests <;> cases u.constraints <;> rfl

theorem apply_updates_tail_duration (p : TripProfile) (u : Updates) :
    (apply_updates_tail p u).duration_days =
      (match u.duration_days with
       | some n => some n
       | none => p.duration_days) := by
  simp only [apply_updates_tail]
  cases u.duration_days <;> cases u.interests <;> cases u.constraints <;> rfl

theorem apply_updates_tail_budget (p : TripProfile) (u : Updates) :
    (apply_updates_tail p u).budget = applyTextField p.budget u.budget := by
  simp only [apply_updates_tail]
  cases u.duration_days <;> cases u.interests <;> cases u.constraints <;> rfl

theorem apply_updates_tail_travelers (p : TripProfile) (u : Updates) :
    (apply_updates_tail p u).travelers = applyTextField p.travelers u.travelers := by
  simp only [apply_updates_tail]
  cases u.duration_days <;> cases u.interests <;> cases u.constraints <;> rfl

theorem apply_updates_tail_pace (p : TripProfile) (u : Updates) :
    (apply_updates_tail p u).pace = applyTextField p.pace u.pace := by
  simp only [apply_updates_tail]
  cases u.duration_days <;> cases u.interests <;> cases u.constraints <;> rfl

theorem apply_updates_tail_interests_eq (p : TripProfile) (u : Updates) :
    (apply_updates_tail p u).interests =
      (match u.interests with
       | some l => mergeListField p.interests l
       | none => p.interests) := by
  simp only [apply_updates_tail]
  cases u.duration_days <;> cases u.interests <;> cases u.constraints <;> rfl

theorem apply_updates_tail_constraints_eq (p : TripProfile) (u : Updates) :
    (apply_updates_tail p u).constraints =
      (match u.constraints with
       | some l => mergeListField p.constraints l
       | none => p.constraints) := by
  simp only [apply_updates_tail]
  cases u.duration_days <;> cases u.interests <;> cases u.constraints <;> rfl

theorem tripProfile_ext {a b : TripProfile}
    (h1 : a.destination = b.destination) (h2 : a.start_date = b.start_date)
    (h3 : a.end_date = b.end_date) (h4 : a.duration_days = b.duration_days)
    (h5 : a.budget = b.budget) (h6 : a.travelers = b.travelers)
    (h7 : a.interests = b.interests) (h8 : a.pace = b.pace)
    (h9 : a.constraints = b.constraints) : a = b := by
  cases a; cases b; simp_all

theorem apply_updates_tail_idem (p : TripProfile) (u : Updates) :
    apply_updates_tail (apply_updates_tail p u) u = apply_updates_tail p u := by
  apply tripProfile_ext <;>
    simp only [apply_updates_tail_destination, apply_updates_tail_start_date,
      apply_updates_tail_end_date, apply_updates_tail_duration, apply_updates_tail_budget,
      apply_updates_tail_travelers, apply_updates_tail_pace, apply_updates_tail_interests_eq,
      apply_updates_tail_constraints_eq, applyTextField_idem] <;>
    cases u.duration_days <;> cases u.interests <;> cases u.constraints <;>
    simp [apply_updates_tail_interests_eq, apply_updates_tail_constraints_eq,
      mergeListField_idem]

/-- On a profile whose destination and date fields are already fixed points of
the update, `apply_updates` runs straight through to the tail. -/
theorem apply_updates_fixed (r : TripProfile) (u : Updates)
    (hd : applyTextField r.destination u.destination = r.destination)
    (hs : applyDateField r.start_date u.start_date = some r.start_date)
    (he : applyDateField r.end_date u.end_date = some r.end_date) :
    apply_updates r u = (apply_updates_tail r u, false) := by
  simp only [apply_updates, hd, hs, he]

theorem apply_updates_fixed_idem (q : TripProfile) (u : Updates)
    (hd : applyTextField q.destination u.destination = q.destination)
    (hs : applyDateField q.start_date u.start_date = some q.start_date)
    (he : applyDateField q.end_date u.end_date = some q.end_date) :
    apply_updates (apply_updates_tail q u) u = (apply_updates_tail q u, false) := by
  have hd' : applyTextField (apply_updates_tail q u).destination u.destination =
      (apply_updates_tail q u).destination := by
    rw [apply_updates_tail_destination]; exact hd
  have hs' : applyDateField (apply_updates_tail q u).start_date u.start_date =
      some (apply_updates_tail q u).start_date := by
    rw [apply_updates_tail_start_date]; exact hs
  have he' : applyDateField (apply_updates_tail q u).end_date u.end_date =
      some (apply_updates_tail q u).end_date := by
    rw [apply_updates_tail_end_date]; exact he
  rw [apply_updates_fixed _ u hd' hs' he', apply_updates_tail_idem]

/-- The optional-interests update of `apply_updates`, as a total function. -/
theorem apply_updates_tail_interests (p : TripProfile) (u : Updates) :
    ∃ l, (apply_updates_tail p u).interests = mergeListField p.interests l := by
  simp only [apply_updates_tail]
  cases u.duration_days <;> cases hi : u.interests <;> cases u.constraints <;>
    first
      | exact ⟨[], rfl⟩
      | exact ⟨_, rfl⟩

theorem apply_updates_tail_constraints (p : TripProfile) (u : Updates) :
    ∃ l, (apply_updates_tail p u).constraints = mergeListField p.constraints l := by
  simp only [apply_updates_tail]
  cases u.duration_days <;> cases u.interests <;> cases hc : u.constraints <;>
    first
      | exact ⟨[], rfl⟩
      | exact ⟨_, rfl⟩

theorem apply_updates_interests_merge (p : TripProfile) (u : Updates) :
    ∃ l, ((apply_updates p u).1).interests = mergeListField p.interests l := by
  simp only [apply_updates]
  cases h1 : applyDateField p.start_date u.start_date with
  | none => exact ⟨[], rfl⟩
  | some sd =>
    cases h2 : applyDateField p.end_date u.end_date with
    | none => exact ⟨[], rfl⟩
    | some ed => exact apply_updates_tail_interests _ u

theorem apply_updates_constraints_merge (p : TripProfile) (u : Updates) :
    ∃ l, ((apply_updates p u).1).constraints = mergeListField p.constraints l := by
  simp only [apply_updates]
  cases h1 : applyDateField p.start_date u.start_date with
  | none => exact ⟨[], rfl⟩
  | some sd =>
    cases h2 : applyDateField p.end_date u.end_date with
    | none => exact ⟨[], rfl⟩
    | some ed => exact apply_updates_tail_constraints _ u

/-- C6: across any sequence of `apply_updates` calls starting from a fresh
profile, `interests` and `constraints` stay duplicate-free; a single update
only ever appends to them (first-seen order is preserved); and applying the
same update dictionary twice leaves the whole profile exactly as applying it
once. -/
theorem apply_updates_lists_nodup_ordered_idem :
    (∀ us : List Updates,
      ((us.foldl (fun p u => (apply_updates p u).1) {}).interests.Nodup ∧
       (us.foldl (fun p u => (apply_updates p u).1) {}).constraints.Nodup)) ∧
    (∀ (p : TripProfile) (u : Updates),
      p.interests <+: ((apply_updates p u).1).interests ∧
      p.constraints <+: ((apply_updates p u).1).constraints) ∧
    (∀ (p : TripProfile) (u : Updates),
      apply_updates (apply_updates p u).1 u = apply_updates p u) := by
  have hnodup : ∀ (p : TripProfile) (u : Updates), p.interests.Nodup →
      ((apply_updates p u).1).interests.Nodup := by
    intro p u h
    obtain ⟨l, hl⟩ := apply_updates_interests_merge p u
    rw [hl]; exact mergeListField_nodup l _ h
  have hnodupC : ∀ (p : TripProfile) (u : Updates), p.constraints.Nodup →
      ((apply_updates p u).1).constraints.Nodup := by
    intro p u h
    obtain ⟨l, hl⟩ := apply_updates_constraints_merge p u
    rw [hl]; exact mergeListField_nodup l _ h
  refine ⟨?_, ?_, ?_⟩
  · intro us
    have : ∀ (p : TripProfile), p.interests.Nodup → p.constraints.Nodup →
        ((us.foldl (fun p u => (apply_updates p u).1) p).interests.Nodup ∧
         (us.foldl (fun p u => (apply_updates p u).1) p).constraints.Nodup) := by
      induction us with
      | nil => intro p h1 h2; exact ⟨h1, h2⟩
      | cons u rest ih =>
        intro p h1 h2
        exact ih _ (hnodup p u h1) (hnodupC p u h2)
    exact this {} (by simp) (by simp)
  · intro p u
    obtain ⟨l, hl⟩ := apply_updates_interests_merge p u
    obtain ⟨l', hl'⟩ := apply_updates_constraints_merge p u
    exact ⟨hl ▸ mergeListField_extends l p.interests,
           hl' ▸ mergeListField_extends l' p.constraints⟩
  · intro p u
    simp only [apply_updates]
    cases h1 : applyDateField p.start_date u.start_date with
    | none => simp [apply_updates, h1, applyTextField_idem]
    | some sd =>
      have hi1 := applyDateField_idem _ _ _ h1
      cases h2 : applyDateField p.end_date u.end_date with
      | none => simp [apply_updates, hi1, h2, applyTextField_idem]
      | some ed =>
        have hi2 := applyDateField_idem _ _ _ h2
        exact apply_updates_fixed_idem _ u (applyTextField_idem _ _) hi1 hi2

/-! ### Cross-message combination lemmas for C3 and C7 -/

theorem combineScanLoop_no_amount (needA needP : Bool) (maxLb : Nat) :
    ∀ (msgs : List Message) (cnt : Nat) (fp : Option (String × String)),
      (combineScanLoop false needA needP maxLb msgs cnt none fp).1 = none := by
  intro msgs
  induction msgs with
  | nil => intro cnt fp; rfl
  | cons m rest ih =>
    intro cnt fp
    simp only [combineScanLoop]
    by_cases h1 : m.role ≠ "user"
    · simp only [if_pos h1]; exact ih _ _
    · simp only [if_neg h1]
      by_cases h2 : pyStrip m.content = ""
      · simp only [if_pos h2]; exact ih _ _
      · simp only [if_neg h2]
        by_cases h3 : maxLb < cnt + 1
        · simp only [if_pos h3]
        · simp only [if_neg h3, Bool.false_and, Bool.false_eq_true, if_false,
            Option.isSome_none, Bool.or_false]
          by_cases hfp : (Option.isNone fp &&
              (extract_currency_parts (pyStrip m.content)).pair.isSome) = true
          · simp only [if_pos hfp]
            split
            · rfl
            · exact ih _ _
          · simp only [if_neg hfp]
            split
            · rfl
            · exact ih _ _

theorem combineScanLoop_pair_scan (allow : Bool) (maxLb : Nat) :
    ∀ (msgs : List Message) (cnt : Nat) (fa : Option ℚ),
      (combineScanLoop allow false true maxLb msgs cnt fa none).2 =
        history_pair_scan maxLb msgs cnt := by
  intro msgs
  induction msgs with
  | nil => intro cnt fa; rfl
  | cons m rest ih =>
    intro cnt fa
    simp only [combineScanLoop, history_pair_scan]
    by_cases h1 : m.role ≠ "user"
    · simp only [if_pos h1]; exact ih _ _
    · simp only [if_neg h1]
      by_cases h2 : pyStrip m.content = ""
      · simp only [if_pos h2]; exact ih _ _
      · simp only [if_neg h2]
        by_cases h3 : maxLb < cnt + 1
        · simp only [if_pos h3]
        · simp only [if_neg h3, Option.isNone_none, Bool.true_and, Bool.not_false,
            Bool.true_or, Bool.not_true, Bool.false_or, Bool.true_and]
          cases hp : (extract_currency_parts (pyStrip m.content)).pair with
          | some pr => simp [hp]
          | none =>
            simp only [hp, Option.isSome_none, Bool.false_eq_true, if_false,
              Option.isSome_some]
            exact ih _ _

/-- When the current message already supplies the amount but not the pair, the
combination returns exactly the first pair found in bounded history raised to
a full query with that amount. -/
theorem combine_pair_from_history (msg : String) (hist : List Message) (a : ℚ)
    (hq : parse_currency_query msg = none) (ha : parse_currency_amount msg = some a)
    (hp : parse_currency_pair msg = none) :
    combine_currency_query_from_history msg hist 10 true =
      (history_pair_scan 10 hist.reverse 0).map
        (fun pr => (⟨a, pr.1, pr.2⟩ : CurrencyQuery)) := by
  have hparts : extract_currency_parts msg = ⟨some a, none⟩ := by
    unfold extract_currency_parts
    rw [hq, ha, hp]
  simp only [combine_currency_query_from_history, hq, hparts]
  simp only [Option.isNone_some, Option.isNone_none, Bool.and_false, Bool.false_and,
    Bool.and_true, Bool.true_and]
  rw [combineScanLoop_pair_scan]
  cases hs : history_pair_scan 10 hist.reverse 0 with
  | none => simp [hs]
  | some pr => simp [hs]

/-- C7: with amount-from-history not permitted, any successful combination
takes its amount from the current message alone (never from history); in
particular, prior user message "100" with current message "EUR to USD" and the
pair slot pending yields no combination at all. -/
theorem combine_never_backfills_amount :
    (∀ (msg : String) (hist : List Message) (n : Nat) (q : CurrencyQuery),
        combine_currency_query_from_history msg hist n false = some q →
        (extract_currency_parts msg).amount = some q.amount) ∧
    combine_currency_query_from_history "EUR to USD" [⟨"user", "100", 0⟩] 10 false = none := by
  constructor
  · intro msg hist n q h
    unfold combine_currency_query_from_history at h
    cases hq : parse_currency_query msg with
    | some full =>
      rw [hq] at h
      cases h
      simp [extract_currency_parts, hq]
    | none =>
      rw [hq] at h
      simp only at h
      split at h
      · cases h
      · rename_i hboth
        cases hnow : (extract_currency_parts msg).amount with
        | some a =>
          rw [hnow] at h
          split at h
          · rename_i q' hq'
            injection h with h2
            subst h2
            simpa using q'
          · cases h
        | none =>
          rw [hnow] at h
          rw [combineScanLoop_no_amount] at h
          split at h
          · rename_i heq1 heq2
            exact absurd heq1 (by simp)
          · cases h
  · rfl

/-- C7 witness: a full single-message query flows through the combiner with
its own amount. -/
theorem combine_never_backfills_amount_witness :
    (extract_currency_parts "100 eur to usd").amount =
      some (⟨(100 : ℚ), "EUR", "USD"⟩ : CurrencyQuery).amount :=
  combine_never_backfills_amount.1 "100 eur to usd" [] 10 ⟨100, "EUR", "USD"⟩ rfl

/-- A session state matching the C3 scenario except that its profile carries a
non-positive duration, which makes validation fail for every goal. -/
def c3_state : State :=
  { session_id := "s",
    trip_profile := { duration_days := some (-1) },
    pending_missing_info := ["currency_amount"],
    conversation_history :=
      [⟨"user", "EUR to USD", 0⟩,
       ⟨"assistant", "What amount do you want to convert? (e.g., 100)", 0⟩,
       ⟨"user", "100", 0⟩] }

/-- C3 counterexample: pending slot is exactly `currency_amount`, a prior user
message carries the pair `EUR to USD`, the next message is the bare number
`100` — yet the router asks a clarification instead of calling the currency
tool, because the session state fails validation (duration −1). -/
theorem decide_currency_bare_number_counterexample :
    c3_state.pending_missing_info = ["currency_amount"] ∧
    history_pair_scan 10 c3_state.conversation_history.dropLast.reverse 0 =
      some ("EUR", "USD") ∧
    parse_currency_amount "100" = some 100 ∧
    decide ⟨2026, 10, 12⟩ Intent.CURRENCY_CONVERSION
        (validate Intent.CURRENCY_CONVERSION c3_state) "100" c3_state =
      { action := Action.ASK_CLARIFICATION, missing_info := [],
        notes := some "Missing or invalid information" } :=
  ⟨rfl, rfl, rfl, rfl⟩

/-- C3 (amended): with passing validation, pending slot exactly
`currency_amount`, a bare positive number as the next message, and a currency
pair parseable from a prior user message within the 10-message lookback, the
router calls the currency tool with that number as amount and the remembered
pair as the payload. -/
theorem decide_currency_bare_number_uses_remembered_pair
    (today : PyDate) (validation : ValidationResult) (st : State) (msg : String)
    (a : ℚ) (f t : String) (hok : validation.ok = true)
    (hpend : st.pending_missing_info = ["currency_amount"])
    (hq : parse_currency_query msg = none)
    (ha : parse_currency_amount msg = some a)
    (hp : parse_currency_pair msg = none)
    (hscan : history_pair_scan 10 st.conversation_history.dropLast.reverse 0 =
      some (f, t)) :
    decide today Intent.CURRENCY_CONVERSION validation msg st =
      { action := Action.CALL_TOOL, tool_name := some "currency",
        tool_payload := some ⟨a, f, t⟩,
        notes := some "Currency conversion -> call tool (use resolved currency_query; no re-parse in FlowController)" } := by
  have hcomb := combine_pair_from_history msg st.conversation_history.dropLast a hq ha hp
  rw [hscan] at hcomb
  simp only [Option.map_some'] at hcomb
  simp [decide, hok, hq, hpend, hcomb]

/-- C3 witness: the scenario state with a valid profile routes to the tool. -/
theorem decide_currency_bare_number_witness :
    decide ⟨2026, 10, 12⟩ Intent.CURRENCY_CONVERSION ⟨true, [], []⟩ "100"
        { session_id := "s",
          pending_missing_info := ["currency_amount"],
          conversation_history :=
            [⟨"user", "EUR to USD", 0⟩,
             ⟨"assistant", "What amount do you want to convert? (e.g., 100)", 0⟩,
             ⟨"user", "100", 0⟩] } =
      { action := Action.CALL_TOOL, tool_name := some "currency",
        tool_payload := some ⟨100, "EUR", "USD"⟩,
        notes := some "Currency conversion -> call tool (use resolved currency_query; no re-parse in FlowController)" } :=
  decide_currency_bare_number_uses_remembered_pair ⟨2026, 10, 12⟩ ⟨true, [], []⟩ _ "100"
    100 "EUR" "USD" rfl rfl rfl rfl rfl rfl

/-! ### Recovery-ladder properties (C9) -/

set_option maxHeartbeats 2000000 in
theorem build_clarification_question_ne_empty (mi : List String) :
    build_clarification_question mi ≠ "" := by
  unfold build_clarification_question
  rcases mi with _ | ⟨f, rest⟩
  · decide
  · simp only [build_clarification_question]
    split_ifs <;> decide

/-- What a successfully completed recovery must deliver: a non-empty
user-facing message and at most one pending slot; a raised exception violates
the predicate. -/
def RecoverOk : Except String FallbackResult → Prop
  | Except.ok r => r.message ≠ "" ∧ r.pending_missing_info.length ≤ 1
  | Except.error _ => False

/-- A session state mid-itinerary with a fully valid profile: recovery walks
all the way down to the generation collaborator. -/
def c9_state : State :=
  { session_id := "s", last_intent := some Intent.ITINERARY_PLANNING,
    trip_profile := { destination := some "Paris", duration_days := some 5 } }

/-- C9 counterexample: when the generation collaborator raises (missing API
key, API failure, empty model response — none of which `recover` catches), the
exception propagates out of `recover`, refuting "recover never raises for any
behaviour of the generation collaborator". -/
theorem recover_propagates_generator_error :
    recover c9_state "please help" none [] none
        (fun _ => Except.error "Gemini API call failed") =
      Except.error "Gemini API call failed" :=
  rfl

/-- C9 (amended): provided the generation collaborator returns text (possibly
empty) without raising, `recover` never raises, always produces a non-empty
user-facing message and at most one pending slot; and when the ladder reaches
the last-resort generation and it comes back empty, the message is the fixed
canned goal-selection text with the resolved goal remembered. -/
theorem recover_never_raises_nonempty :
    (∀ (st : State) (msg : String) (io : Option Intent) (rm : List (String × String))
        (err : Option String) (gen : String → Except String String),
        (∀ p, ∃ t, gen p = Except.ok t) →
        RecoverOk (recover st msg io rm err gen)) ∧
    (∀ (st : State) (msg : String) (io : Option Intent) (rm : List (String × String))
        (err : Option String) (g : Intent),
        st.pending_missing_info = [] → recover_goal st io = some g →
        (validate g st).ok = true →
        recover st msg io rm err (fun _ => Except.ok "") =
          Except.ok ⟨exhausted_recovery_message, false, ["goal"], some g⟩) := by
  constructor
  · intro st msg io rm err gen hgen
    simp only [recover]
    split
    · exact ⟨build_clarification_question_ne_empty _, by
        simpa using List.length_take_le 1 st.pending_missing_info⟩
    · split
      · exact ⟨by decide, by decide⟩
      · split
        · rename_i r hr
          split at hr
          · rename_i g hg
            split at hr
            · cases hr
              exact ⟨build_clarification_question_ne_empty _, by
                simpa using List.length_take_le 1 (validate g st).missing_info⟩
            · cases hr
          · cases hr
        · obtain ⟨t, ht⟩ := hgen (build_system_prompt ++ "\n\n" ++
            build_fallback_prompt (recover_goal st io) st msg rm err)
          rw [ht]
          simp only []
          by_cases hstrip : pyStrip t = ""
          · simp only [if_pos hstrip]
            exact ⟨by show exhausted_recovery_message ≠ ""; decide,
                   by show (["goal"] : List String).length ≤ 1; decide⟩
          · simp only [if_neg hstrip]
            exact ⟨hstrip, by show ([] : List String).length ≤ 1; decide⟩
  · intro st msg io rm err g hpend hgoal hval
    simp only [recover]
    rw [if_neg (by simp [hpend])]
    have hguard : ¬(((recover_active_goal st).isNone && !optIsGoal io) = true) := by
      intro hcontra
      simp only [Bool.and_eq_true, Option.isNone_iff_eq_none, Bool.not_eq_true'] at hcontra
      unfold recover_goal at hgoal
      rw [hcontra.2] at hgoal
      simp only [Bool.false_eq_true, if_false] at hgoal
      rw [hcontra.1] at hgoal
      cases hgoal
    rw [if_neg hguard]
    rw [hgoal]
    simp only [hval, Bool.not_true, Bool.false_eq_true, if_false]
    have hstrip : pyStrip "" = "" := rfl
    simp [hstrip, hgoal]

/-- C9 witness: a concrete fresh session with a well-behaved collaborator, and
the exhausted-recovery path on the itinerary session with an empty-text
collaborator. -/
theorem recover_never_raises_nonempty_witness :
    RecoverOk (recover { session_id := "s" } "hello" none [] none
      (fun _ => Except.ok "hi")) ∧
    recover c9_state "hello" none [] none (fun _ => Except.ok "") =
      Except.ok ⟨exhausted_recovery_message, false, ["goal"],
        some Intent.ITINERARY_PLANNING⟩ :=
  ⟨recover_never_raises_nonempty.1 _ _ _ _ _ _ (fun p => ⟨"hi", rfl⟩),
   recover_never_raises_nonempty.2 c9_state "hello" none [] none
     Intent.ITINERARY_PLANNING rfl rfl rfl⟩

/-! ### Pending-slot invariant (C1) -/

set_option maxHeartbeats 4000000 in
theorem infer_pending_length_le_one (t : String) (i : Intent) (st : State) :
    (infer_pending_from_assistant t i st).length ≤ 1 := by
  unfold infer_pending_from_assistant
  dsimp only
  split_ifs <;> simp [List.length_take] <;> omega

theorem pending_choice_le_one (l : List String) (t : String) (i : Intent) (st : State) :
    (if l ≠ [] then l.take 1 else infer_pending_from_assistant t i st).length ≤ 1 := by
  split
  · simpa using List.length_take_le 1 l
  · exact infer_pending_length_le_one t i st

theorem recovery_step_pending_le_one (env : Env) (st : State) (msg : String) (i : Intent) :
    ((recovery_step env st msg i).2).pending_missing_info.length ≤ 1 := by
  unfold recovery_step
  dsimp only
  split
  · split
    · exact pending_choice_le_one _ _ _ _
    · exact pending_choice_le_one _ _ _ _
  · exact pending_choice_le_one _ _ _ _

theorem execute_decision_preserves_pending (env : Env) (d : Decision) (st : State)
    (i : Intent) (msg : String) (t : String) (st' : State)
    (h : execute_decision env d st i msg = Except.ok (t, st')) :
    st'.pending_missing_info = st.pending_missing_info := by
  unfold execute_decision at h
  split_ifs at h <;>
    first
      | (cases h; rfl)
      | ((repeat' split at h) <;>
          first
            | (cases h; rfl)
            | (cases h; split <;> rfl)
            | cases h
            | rfl)

/-- The C1 invariant, stated over a possibly-aborted turn. -/
def PendingBounded : Option (TurnResponse × State) → Prop
  | some r => r.2.pending_missing_info.length ≤ 1
  | none => True

theorem decision_pending_update_pending_le_one (d : Decision) (prev : List String)
    (i : Intent) (st : State) :
    (decision_pending_update d prev i st).pending_missing_info.length ≤ 1 := by
  unfold decision_pending_update
  split_ifs with h1 h2
  · simpa using List.length_take_le 1 d.missing_info
  · simp [h2.1]
  · simp

theorem generate_infer_update_pending_le_one (d : Decision) (i : Intent) (t : String)
    (st : State) (h : st.pending_missing_info.length ≤ 1) :
    (generate_infer_update d i t st).pending_missing_info.length ≤ 1 := by
  unfold generate_infer_update
  split
  · exact infer_pending_length_le_one _ _ _
  · exact h

theorem turn_execute_pending_le_one (env : Env) (decision : Decision) (prev : List String)
    (i : Intent) (msg : String) (state : State) :
    ((turn_execute env decision (decision_pending_update decision prev i state) i msg).2
      ).pending_missing_info.length ≤ 1 := by
  unfold turn_execute
  cases he : execute_decision env decision (decision_pending_update decision prev i state)
      i msg with
  | error e => exact recovery_step_pending_le_one _ _ _ _
  | ok v =>
    obtain ⟨text, state'⟩ := v
    dsimp only
    split
    · exact recovery_step_pending_le_one _ _ _ _
    · rw [show ((text, state').2) = state' from rfl,
        execute_decision_preserves_pending env decision _ i msg text state' he]
      exact decision_pending_update_pending_le_one _ _ _ _

/-- C1: after every completed turn of the orchestrator — clarification or
non-clarification decisions, the missing-decision recovery path, and the
execution-error (or empty-output) recovery path, under arbitrary collaborator
behaviour — the session's `pending_missing_info` holds at most one element. -/
theorem handle_turn_pending_le_one (env : Env) (sid msg : String) (st : State) :
    PendingBounded (handle_turn env sid msg st) := by
  unfold handle_turn
  cases hpre : turn_prelude env msg st with
  | none => trivial
  | some p =>
    obtain ⟨intent_for_flow, state⟩ := p
    dsimp only
    cases hdec : env.decideFn intent_for_flow (validate intent_for_flow state) msg state with
    | none => exact recovery_step_pending_le_one env state msg intent_for_flow
    | some decision =>
      exact generate_infer_update_pending_le_one _ _ _ _
        (turn_execute_pending_le_one env decision st.pending_missing_info
          intent_for_flow msg state)

/-! ### Profile persistence (C8) -/

theorem applyTextField_isSome (cur upd : Option String) (h : cur.isSome = true) :
    (applyTextField cur upd).isSome = true := by
  cases upd with
  | none => exact h
  | some s =>
    simp only [applyTextField]
    split <;> simp [h]

theorem apply_updates_destination (p : TripProfile) (u : Updates) :
    ((apply_updates p u).1).destination = applyTextField p.destination u.destination := by
  simp only [apply_updates]
  cases h1 : applyDateField p.start_date u.start_date with
  | none => rfl
  | some sd =>
    cases h2 : applyDateField p.end_date u.end_date with
    | none => rfl
    | some ed => exact apply_updates_tail_destination _ u

theorem applyDateField_isSome (cur : Option PyDate) (upd : Option DateUpdate)
    (sd : Option PyDate) (h : applyDateField cur upd = some sd)
    (hc : cur.isSome = true) : sd.isSome = true := by
  cases upd with
  | none => cases h; exact hc
  | some du =>
    cases du with
    | d d => cases h; rfl
    | s s =>
      by_cases hb : pyStrip s = ""
      · simp only [applyDateField, if_pos hb] at h; cases h; exact hc
      · simp only [applyDateField, if_neg hb] at h
        cases hp : fromIsoFormat (pyStrip s) with
        | none => rw [hp] at h; cases h
        | some d => rw [hp] at h; cases h; rfl

theorem apply_updates_start_isSome (p : TripProfile) (u : Updates)
    (h : p.start_date.isSome = true) :
    ((apply_updates p u).1).start_date.isSome = true := by
  simp only [apply_updates]
  cases h1 : applyDateField p.start_date u.start_date with
  | none => exact h
  | some sd =>
    cases h2 : applyDateField p.end_date u.end_date with
    | none => exact applyDateField_isSome _ _ _ h1 h
    | some ed =>
      rw [show ((apply_updates_tail
        { p with
          destination := applyTextField p.destination u.destination,
          start_date := sd, end_date := ed } u, false).1) =
        apply_updates_tail
        { p with
          destination := applyTextField p.destination u.destination,
          start_date := sd, end_date := ed } u from rfl,
        apply_updates_tail_start_date]
      exact applyDateField_isSome _ _ _ h1 h

theorem apply_updates_end_isSome (p : TripProfile) (u : Updates)
    (h : p.end_date.isSome = true)
    (hdone : (apply_updates p u).2 = false) :
    ((apply_updates p u).1).end_date.isSome = true := by
  simp only [apply_updates] at hdone ⊢
  cases h1 : applyDateField p.start_date u.start_date with
  | none => rw [h1] at hdone; cases hdone
  | some sd =>
    cases h2 : applyDateField p.end_date u.end_date with
    | none => rw [h1, h2] at hdone; cases hdone
    | some ed =>
      rw [show ((apply_updates_tail
        { p with
          destination := applyTextField p.destination u.destination,
          start_date := sd, end_date := ed } u, false).1) =
        apply_updates_tail
        { p with
          destination := applyTextField p.destination u.destination,
          start_date := sd, end_date := ed } u from rfl,
        apply_updates_tail_end_date]
      exact applyDateField_isSome _ _ _ h2 h

theorem guardrail_no_month (today : PyDate) (msg : String) (st : State)
    (h : mentions_month msg = false) :
    guardrail_roll_month_without_year_forward today msg st = st := by
  unfold guardrail_roll_month_without_year_forward
  rw [if_pos (by simp [h])]

theorem guardrail_destination (today : PyDate) (msg : String) (st : State) :
    (guardrail_roll_month_without_year_forward today msg st).trip_profile.destination =
      st.trip_profile.destination := by
  unfold guardrail_roll_month_without_year_forward
  split
  · rfl
  · split
    · split
      · split <;> rfl
      · rfl
    · rfl

theorem recovery_step_trip (env : Env) (st : State) (msg : String) (i : Intent) :
    ((recovery_step env st msg i).2).trip_profile = st.trip_profile := by
  unfold recovery_step
  dsimp only
  split
  · split <;> rfl
  · rfl

theorem execute_decision_trip (env : Env) (d : Decision) (st : State)
    (i : Intent) (msg : String) (t : String) (st' : State)
    (h : execute_decision env d st i msg = Except.ok (t, st')) :
    st'.trip_profile = st.trip_profile := by
  unfold execute_decision at h
  split_ifs at h <;>
    first
      | (cases h; rfl)
      | ((repeat' split at h) <;>
          first
            | (cases h; rfl)
            | (cases h; split <;> rfl)
            | cases h
            | rfl)

theorem turn_execute_trip (env : Env) (decision : Decision) (state : State)
    (i : Intent) (msg : String) :
    ((turn_execute env decision state i msg).2).trip_profile = state.trip_profile := by
  unfold turn_execute
  cases he : execute_decision env decision state i msg with
  | error e => exact recovery_step_trip _ _ _ _
  | ok v =>
    obtain ⟨text, state'⟩ := v
    dsimp only
    split
    · rw [recovery_step_trip]
      exact execute_decision_trip env decision state i msg text state' he
    · exact execute_decision_trip env decision state i msg text state' he

theorem decision_pending_update_trip (d : Decision) (prev : List String)
    (i : Intent) (st : State) :
    (decision_pending_update d prev i st).trip_profile = st.trip_profile := by
  unfold decision_pending_update
  split_ifs <;> rfl

theorem generate_infer_update_trip (d : Decision) (i : Intent) (t : String) (st : State) :
    (generate_infer_update d i t st).trip_profile = st.trip_profile := by
  unfold generate_infer_update
  split <;> rfl

theorem add_message_trip (m n : Nat) (s : State) (r c : String) :
    (add_message m n s r c).trip_profile = s.trip_profile := rfl

theorem increment_turn_trip (n : Nat) (s : State) :
    (increment_turn n s).trip_profile = s.trip_profile := rfl

theorem turn_bookkeeping_trip (i : Intent) (s : State) :
    (turn_bookkeeping i s).trip_profile = s.trip_profile := by
  unfold turn_bookkeeping
  split
  · split <;> rfl
  · rfl

theorem turn_profile_update_trip (env : Env) (s : State) :
    ((turn_profile_update env s).1).trip_profile =
      (apply_updates s.trip_profile (env.intent_result.extracted_updates.getD {})).1 := rfl

theorem turn_prelude_destination (env : Env) (msg : String) (st : State)
    (i : Intent) (s' : State) (h : turn_prelude env msg st = some (i, s'))
    (hd : st.trip_profile.destination.isSome = true) :
    s'.trip_profile.destination.isSome = true := by
  unfold turn_prelude at h
  split at h
  · cases h
  · injection h with h2
    obtain ⟨h3, h4⟩ := Prod.mk.injEq .. |>.mp h2
    rw [← h4, increment_turn_trip, turn_bookkeeping_trip, guardrail_destination,
      turn_profile_update_trip, apply_updates_destination, add_message_trip]
    exact applyTextField_isSome _ _ hd

theorem turn_prelude_dates (env : Env) (msg : String) (st : State)
    (i : Intent) (s' : State) (h : turn_prelude env msg st = some (i, s'))
    (hm : mentions_month msg = false) :
    (st.trip_profile.start_date.isSome = true → s'.trip_profile.start_date.isSome = true) ∧
    (st.trip_profile.end_date.isSome = true → s'.trip_profile.end_date.isSome = true) := by
  unfold turn_prelude at h
  split at h
  · cases h
  · rename_i hflag
    injection h with h2
    obtain ⟨h3, h4⟩ := Prod.mk.injEq .. |>.mp h2
    rw [← h4]
    rw [increment_turn_trip, turn_bookkeeping_trip, guardrail_no_month _ _ _ hm,
      turn_profile_update_trip]
    constructor
    · intro hs
      exact apply_updates_start_isSome _ _ (by rw [add_message_trip]; exact hs)
    · intro he
      refine apply_updates_end_isSome _ _ (by rw [add_message_trip]; exact he) ?_
      simpa [turn_profile_update] using hflag

/-- The C8 persistence predicate over a possibly-aborted turn: destination,
once set, survives the turn; and on a turn whose message mentions no month
name (so the roll-forward guardrail cannot fire) the start and end dates,
once set, survive as well. -/
def ProfilePersists (msg : String) (st : State) : Option (TurnResponse × State) → Prop
  | some r =>
    (st.trip_profile.destination.isSome = true →
      r.2.trip_profile.destination.isSome = true) ∧
    (mentions_month msg = false →
      (st.trip_profile.start_date.isSome = true →
        r.2.trip_profile.start_date.isSome = true) ∧
      (st.trip_profile.end_date.isSome = true →
        r.2.trip_profile.end_date.isSome = true))
  | none => True

/-- C8 (amended): within a session's lifetime the profile is mutated by
`apply_updates` and by the month-roll guardrail; a destination that is set
stays set on every completed turn, and set start/end dates stay set on every
completed turn whose message does not mention a month (the guardrail's
clearing of an invalid rolled leap-day range being the sole unset path). -/
theorem handle_turn_profile_persists (env : Env) (sid msg : String) (st : State) :
    ProfilePersists msg st (handle_turn env sid msg st) := by
  unfold handle_turn
  cases hpre : turn_prelude env msg st with
  | none => trivial
  | some p =>
    obtain ⟨intent_for_flow, state⟩ := p
    dsimp only
    cases hdec : env.decideFn intent_for_flow (validate intent_for_flow state) msg state with
    | none =>
      refine ⟨?_, fun hm => ⟨?_, ?_⟩⟩
      · intro hd
        show ((recovery_step env state msg intent_for_flow).2).trip_profile.destination.isSome
          = true
        rw [recovery_step_trip]
        exact turn_prelude_destination env msg st _ _ hpre hd
      · intro hs
        show ((recovery_step env state msg intent_for_flow).2).trip_profile.start_date.isSome
          = true
        rw [recovery_step_trip]
        exact (turn_prelude_dates env msg st _ _ hpre hm).1 hs
      · intro he
        show ((recovery_step env state msg intent_for_flow).2).trip_profile.end_date.isSome
          = true
        rw [recovery_step_trip]
        exact (turn_prelude_dates env msg st _ _ hpre hm).2 he
    | some decision =>
      have htrip :
          ((generate_infer_update decision intent_for_flow
            (if decision.action ≠ Action.CALL_TOOL then
              (trust_apply intent_for_flow
                (turn_execute env decision
                  (decision_pending_update decision st.pending_missing_info intent_for_flow
                    state) intent_for_flow msg).1 none (some msg)).text
             else (turn_execute env decision
                (decision_pending_update decision st.pending_missing_info intent_for_flow
                  state) intent_for_flow msg).1)
            (turn_execute env decision
              (decision_pending_update decision st.pending_missing_info intent_for_flow
                state) intent_for_flow msg).2)).trip_profile = state.trip_profile := by
        rw [generate_infer_update_trip, turn_execute_trip, decision_pending_update_trip]
      refine ⟨?_, fun hm => ⟨?_, ?_⟩⟩
      · intro hd
        show (add_message _ _ _ _ _).trip_profile.destination.isSome = true
        rw [show ∀ (m n : Nat) (s : State) (r c : String),
            (add_message m n s r c).trip_profile = s.trip_profile from fun _ _ _ _ _ => rfl]
        rw [htrip]
        exact turn_prelude_destination env msg st _ _ hpre hd
      · intro hs
        show (add_message _ _ _ _ _).trip_profile.start_date.isSome = true
        rw [show ∀ (m n : Nat) (s : State) (r c : String),
            (add_message m n s r c).trip_profile = s.trip_profile from fun _ _ _ _ _ => rfl]
        rw [htrip]
        exact (turn_prelude_dates env msg st _ _ hpre hm).1 hs
      · intro he
        show (add_message _ _ _ _ _).trip_profile.end_date.isSome = true
        rw [show ∀ (m n : Nat) (s : State) (r c : String),
            (add_message m n s r c).trip_profile = s.trip_profile from fun _ _ _ _ _ => rfl]
        rw [htrip]
        exact (turn_prelude_dates env msg st _ _ hpre hm).2 he

/-- A concrete single-turn environment: weather intent, no extracted updates,
deterministic router, stub tools, and a fixed generated reply. -/
def c8_env : Env :=
  { today := ⟨2026, 10, 12⟩, now := 1000,
    intent_result := { intent := Intent.WEATHER_QUERY },
    decideFn := fun i v m s => some (decide ⟨2026, 10, 12⟩ i v m s),
    recoverFn := fun _ _ _ => ⟨goal_selection_message, false, ["goal"], none⟩,
    weather_tool := fun _ => ToolOutcome.err,
    currency_tool := fun _ _ _ => ToolOutcome.err,
    gen_response := fun _ => GenOutcome.ok "February in Paris is mild." }

/-- A session whose profile holds a set destination and a set full-February
range of a leap year, lying in the past. -/
def c8_state : State :=
  { session_id := "s",
    trip_profile :=
      { destination := some "Paris",
        start_date := some ⟨2024, 2, 1⟩, end_date := some ⟨2024, 2, 29⟩ } }

/-- C8 counterexample: a completed turn (no session expiry involved) on a
message that mentions a month rolls the past full-month range forward inside
the guardrail — not through `apply_updates` — and, because the rolled Feb 29
does not exist in the target year, resets both set dates to unset. -/
theorem handle_turn_guardrail_clears_set_dates :
    c8_state.trip_profile.start_date = some ⟨2024, 2, 1⟩ ∧
    c8_state.trip_profile.end_date = some ⟨2024, 2, 29⟩ ∧
    (handle_turn c8_env "s" "what about february" c8_state).map
        (fun r => (r.2.trip_profile.start_date, r.2.trip_profile.end_date)) =
      some (none, none) :=
  ⟨rfl, rfl, rfl⟩

/-- C8 witness: on a month-free message the set destination and dates survive
the turn. -/
theorem handle_turn_profile_persists_witness :
    ProfilePersists "hello" c8_state (handle_turn c8_env "s" "hello" c8_state) :=
  handle_turn_profile_persists c8_env "s" "hello" c8_state

/-- C1 witness: a concrete completed turn keeps at most one pending slot. -/
theorem handle_turn_pending_le_one_witness :
    PendingBounded (handle_turn c8_env "s" "hello" { session_id := "s" }) :=
  handle_turn_pending_le_one c8_env "s" "hello" { session_id := "s" }

end Travel
